import Mathlib

/-!
Shallow embedding of the NEURAX neural-network accelerator runtime
(software library under software/lib/src), covering the tensor data
model, element access and saturation, validation, the CPU kernels for
convolution, pooling and activation, type conversion, the device
lifecycle and the memory-mapped register protocol.

Modelling conventions, stated once here and referenced below:
* Element values are modelled as exact rationals.  Every IEEE float is
  a rational, and all clamp, truncation and comparison steps performed
  by the code are exact on rationals; every concrete instance settled
  below stays inside the range where float32 arithmetic is exact.
* The transcendental activations (tanhf, expf) are kept as explicit
  function parameters of type Rat to Rat; no settled statement ever
  evaluates them.
* Tensor storage is a list of element values (the logical content of
  the typed C buffer); the separate data_size field mirrors the byte
  count recorded in the struct, which validation compares against the
  dimensions.  Null-pointer checks of the C API have no counterpart
  for values and are not modelled.
* uint32 arithmetic is modelled on Nat with explicit reductions
  modulo 2 ^ 32 at the operations where C wraps.
* Out-of-range list writes are no-ops (List.set semantics); in C the
  corresponding stores would be out-of-bounds undefined behaviour, so
  no settled statement depends on that case.
-/

set_option maxRecDepth 100000

/-- Element types of a tensor, from neurax.h (neurax_data_type_t). -/
inductive neurax_data_type_t where
  | NEURAX_DATA_UINT8
  | NEURAX_DATA_INT8
  | NEURAX_DATA_UINT16
  | NEURAX_DATA_INT16
  | NEURAX_DATA_FLOAT32
deriving DecidableEq, Repr

open neurax_data_type_t

/-- Error codes, from neurax.h (neurax_error_t). -/
inductive neurax_error_t where
  | NEURAX_SUCCESS
  | NEURAX_ERROR_INVALID_PARAM
  | NEURAX_ERROR_NOT_INITIALIZED
  | NEURAX_ERROR_DEVICE_NOT_FOUND
  | NEURAX_ERROR_MEMORY_ALLOCATION
  | NEURAX_ERROR_HARDWARE_FAILURE
  | NEURAX_ERROR_TIMEOUT
  | NEURAX_ERROR_INVALID_MODEL
  | NEURAX_ERROR_BUFFER_OVERFLOW
deriving DecidableEq, Repr

open neurax_error_t

/-- Tensor record, from neurax.h (neurax_tensor_t).  The data field
holds the logical element values of the typed buffer. -/
structure neurax_tensor_t where
  data : List ℚ
  width : Nat
  height : Nat
  channels : Nat
  batch_size : Nat
  data_type : neurax_data_type_t
  data_size : Nat
deriving DecidableEq, Repr

/-- Convolution configuration, from neurax.h (neurax_conv_config_t).
The activation selector is the raw enum value (RELU 0, TANH 1,
SIGMOID 2, LINEAR 3), kept as a Nat so that out-of-enumeration
selectors are representable, as they are in C. -/
structure neurax_conv_config_t where
  kernel_width : Nat
  kernel_height : Nat
  stride_x : Nat
  stride_y : Nat
  padding_x : Nat
  padding_y : Nat
  input_channels : Nat
  output_channels : Nat
  use_bias : Bool
  activation : Nat
deriving DecidableEq, Repr

/-- Pooling configuration, from neurax.h (neurax_pool_config_t).
pool_type is the raw enum value (MAX 0, AVERAGE 1), kept as Nat. -/
structure neurax_pool_config_t where
  pool_width : Nat
  pool_height : Nat
  stride_x : Nat
  stride_y : Nat
  pool_type : Nat
deriving DecidableEq, Repr

/-- Element byte size per type, from neurax_private.h
(neurax_get_element_size). -/
def neurax_get_element_size (t : neurax_data_type_t) : Nat :=
  match t with
  | NEURAX_DATA_UINT8 => 1
  | NEURAX_DATA_INT8 => 1
  | NEURAX_DATA_UINT16 => 2
  | NEURAX_DATA_INT16 => 2
  | NEURAX_DATA_FLOAT32 => 4

/-- Truncation toward zero: the semantics of a C cast from a clamped
floating value to an integer type (C17 6.3.1.4). -/
def ratTrunc (q : ℚ) : ℤ :=
  if 0 ≤ q then ⌊q⌋ else ⌈q⌉

/-- Modulus of 32-bit unsigned arithmetic. -/
def U32_MOD : Nat := 4294967296

/-- Addition as computed on uint32 operands in C. -/
def add32 (a b : Nat) : Nat := (a + b) % U32_MOD

/-- Subtraction as computed on uint32 operands in C (wraps on
underflow).  Faithful for a < 2 ^ 32. -/
def sub32 (a b : Nat) : Nat := (a + U32_MOD - b % U32_MOD) % U32_MOD

/-- Total element count, from neurax_utils.c
(neurax_tensor_total_elements). -/
def neurax_tensor_total_elements (tensor : neurax_tensor_t) : Nat :=
  tensor.width * tensor.height * tensor.channels * tensor.batch_size

/-- Read of one element by 4-coordinate index, from neurax_conv2d.c
(neurax_get_tensor_value).  The C switch reads the typed buffer and
promotes to float; each branch yields the stored element value, which
the model holds directly, so the branches coincide. -/
def neurax_get_tensor_value (tensor : neurax_tensor_t) (batch y x c : Nat) : ℚ :=
  tensor.data.getD (((batch * tensor.height + y) * tensor.width + x) * tensor.channels + c) 0

/-- Read of one weight by the convolution addressing convention, from
neurax_conv2d.c (neurax_get_weight_value): weights are addressed as
[output_channels, input_channels, kernel_height, kernel_width] using
the channels, height and width fields of the weight tensor. -/
def neurax_get_weight_value (weights : neurax_tensor_t) (out_ch in_ch ky kx : Nat) : ℚ :=
  weights.data.getD (((out_ch * weights.channels + in_ch) * weights.height + ky) * weights.width + kx) 0

/-- Read of one bias value, from neurax_conv2d.c
(neurax_get_bias_value). -/
def neurax_get_bias_value (bias : neurax_tensor_t) (channel : Nat) : ℚ :=
  bias.data.getD channel 0

/-- Read of one element by flat index, from neurax_layers.c
(neurax_get_tensor_element). -/
def neurax_get_tensor_element (tensor : neurax_tensor_t) (index : Nat) : ℚ :=
  tensor.data.getD index 0

/-- Write of one element by 4-coordinate index, from neurax_conv2d.c
(neurax_set_tensor_value).  Each branch mirrors the C store, for
example a cast of fmax(0, fmin(255, value)) to uint8_t, which clamps
and then truncates toward zero. -/
def neurax_set_tensor_value (tensor : neurax_tensor_t) (batch y x c : Nat) (value : ℚ) : neurax_tensor_t :=
  let index := ((batch * tensor.height + y) * tensor.width + x) * tensor.channels + c
  match tensor.data_type with
  | NEURAX_DATA_UINT8 =>
      { tensor with data := tensor.data.set index ((ratTrunc (max 0 (min 255 value)) : ℚ)) }
  | NEURAX_DATA_INT8 =>
      { tensor with data := tensor.data.set index ((ratTrunc (max (-128) (min 127 value)) : ℚ)) }
  | NEURAX_DATA_UINT16 =>
      { tensor with data := tensor.data.set index ((ratTrunc (max 0 (min 65535 value)) : ℚ)) }
  | NEURAX_DATA_INT16 =>
      { tensor with data := tensor.data.set index ((ratTrunc (max (-32768) (min 32767 value)) : ℚ)) }
  | NEURAX_DATA_FLOAT32 =>
      { tensor with data := tensor.data.set index value }

/-- Write of one element by flat index, from neurax_layers.c
(neurax_set_tensor_element); the same per-type switch as
neurax_set_tensor_value. -/
def neurax_set_tensor_element (tensor : neurax_tensor_t) (index : Nat) (value : ℚ) : neurax_tensor_t :=
  match tensor.data_type with
  | NEURAX_DATA_UINT8 =>
      { tensor with data := tensor.data.set index ((ratTrunc (max 0 (min 255 value)) : ℚ)) }
  | NEURAX_DATA_INT8 =>
      { tensor with data := tensor.data.set index ((ratTrunc (max (-128) (min 127 value)) : ℚ)) }
  | NEURAX_DATA_UINT16 =>
      { tensor with data := tensor.data.set index ((ratTrunc (max 0 (min 65535 value)) : ℚ)) }
  | NEURAX_DATA_INT16 =>
      { tensor with data := tensor.data.set index ((ratTrunc (max (-32768) (min 32767 value)) : ℚ)) }
  | NEURAX_DATA_FLOAT32 =>
      { tensor with data := tensor.data.set index value }

/-- Tensor validation, from neurax_utils.c (neurax_validate_tensor).
The null-pointer checks on the handle and the storage pointer have no
counterpart for values; the dimension and byte-length checks are
modelled exactly. -/
def neurax_validate_tensor (tensor : neurax_tensor_t) : neurax_error_t :=
  if tensor.width = 0 ∨ tensor.height = 0 ∨ tensor.channels = 0 ∨ tensor.batch_size = 0 then
    NEURAX_ERROR_INVALID_PARAM
  else if tensor.data_size ≠ tensor.width * tensor.height * tensor.channels * tensor.batch_size * neurax_get_element_size tensor.data_type then
    NEURAX_ERROR_INVALID_PARAM
  else
    NEURAX_SUCCESS

/-- Convolution configuration validation, from neurax_utils.c
(neurax_validate_conv_config).  The activation bound compares the raw
selector against NEURAX_ACTIVATION_LINEAR = 3. -/
def neurax_validate_conv_config (config : neurax_conv_config_t) : neurax_error_t :=
  if config.kernel_width = 0 ∨ config.kernel_height = 0 then
    NEURAX_ERROR_INVALID_PARAM
  else if config.kernel_width > 11 ∨ config.kernel_height > 11 then
    NEURAX_ERROR_INVALID_PARAM
  else if config.stride_x = 0 ∨ config.stride_y = 0 then
    NEURAX_ERROR_INVALID_PARAM
  else if config.stride_x > 8 ∨ config.stride_y > 8 then
    NEURAX_ERROR_INVALID_PARAM
  else if config.input_channels = 0 ∨ config.output_channels = 0 then
    NEURAX_ERROR_INVALID_PARAM
  else if config.activation > 3 then
    NEURAX_ERROR_INVALID_PARAM
  else
    NEURAX_SUCCESS

/-- Pooling configuration validation, from neurax_utils.c
(neurax_validate_pool_config); the pool-type bound compares against
NEURAX_POOL_AVERAGE = 1. -/
def neurax_validate_pool_config (config : neurax_pool_config_t) : neurax_error_t :=
  if config.pool_width = 0 ∨ config.pool_height = 0 then
    NEURAX_ERROR_INVALID_PARAM
  else if config.pool_width > 8 ∨ config.pool_height > 8 then
    NEURAX_ERROR_INVALID_PARAM
  else if config.stride_x = 0 ∨ config.stride_y = 0 then
    NEURAX_ERROR_INVALID_PARAM
  else if config.pool_type > 1 then
    NEURAX_ERROR_INVALID_PARAM
  else
    NEURAX_SUCCESS

/-- Scalar activation, from neurax_conv2d.c (neurax_apply_activation).
Selectors: RELU 0, TANH 1, SIGMOID 2; LINEAR (3) and every other
selector fall to the default branch returning the value unchanged.
The transcendentals tanhf and expf are explicit parameters. -/
def neurax_apply_activation (tanhf expf : ℚ → ℚ) (value : ℚ) (activation : Nat) : ℚ :=
  match activation with
  | 0 => max 0 value
  | 1 => tanhf value
  | 2 => 1 / (1 + expf (-value))
  | _ => value

/-- Output height computed by neurax_cpu_conv2d (neurax_conv2d.c line
121): uint32 evaluation of (height + 2 * padding_y - kernel_height) /
stride_y + 1, wrapping on underflow or overflow. -/
def conv_out_height (input : neurax_tensor_t) (config : neurax_conv_config_t) : Nat :=
  add32 (sub32 (add32 input.height (2 * config.padding_y)) config.kernel_height / config.stride_y) 1

/-- Output width computed by neurax_cpu_conv2d (neurax_conv2d.c line
122), the x-axis analogue of conv_out_height. -/
def conv_out_width (input : neurax_tensor_t) (config : neurax_conv_config_t) : Nat :=
  add32 (sub32 (add32 input.width (2 * config.padding_x)) config.kernel_width / config.stride_x) 1

/-- Accumulator of the innermost convolution loops, from
neurax_cpu_conv2d (neurax_conv2d.c lines 142-165): for one output
coordinate, fold over input channels and kernel taps, adding
input times weight for each tap whose input coordinate is inside
[0, dim); out-of-bounds taps are skipped (implicit zero padding).
The input coordinate is formed in int32_t in C; it is modelled on ℤ,
faithful for coordinate magnitudes below 2 ^ 31. -/
def conv_accumulate (input weights : neurax_tensor_t) (config : neurax_conv_config_t)
    (batch out_ch out_y out_x : Nat) : ℚ :=
  (List.range config.input_channels).foldl (fun acc0 in_ch =>
    (List.range config.kernel_height).foldl (fun acc1 ky =>
      (List.range config.kernel_width).foldl (fun acc2 kx =>
        let in_y : ℤ := (out_y * config.stride_y + ky : Nat) - (config.padding_y : ℤ)
        let in_x : ℤ := (out_x * config.stride_x + kx : Nat) - (config.padding_x : ℤ)
        if 0 ≤ in_y ∧ in_y < (input.height : ℤ) ∧ 0 ≤ in_x ∧ in_x < (input.width : ℤ) then
          acc2 + neurax_get_tensor_value input batch in_y.toNat in_x.toNat in_ch *
                 neurax_get_weight_value weights out_ch in_ch ky kx
        else acc2) acc1) acc0) 0

/-- Value stored at one output coordinate by neurax_cpu_conv2d
(neurax_conv2d.c lines 167-177): accumulate, add the bias when the
flag is set and a bias tensor is present, apply the activation. -/
def conv_result_value (tanhf expf : ℚ → ℚ) (input weights : neurax_tensor_t)
    (bias : Option neurax_tensor_t) (config : neurax_conv_config_t)
    (batch out_ch out_y out_x : Nat) : ℚ :=
  let acc := conv_accumulate input weights config batch out_ch out_y out_x
  let acc :=
    if config.use_bias then
      match bias with
      | some b => acc + neurax_get_bias_value b out_ch
      | none => acc
    else acc
  neurax_apply_activation tanhf expf acc config.activation

/-- Output buffer produced by the convolution loop nest of
neurax_cpu_conv2d (neurax_conv2d.c lines 129-181).  The C code zeroes
the output buffer (memset; a zero byte pattern is the value 0 in all
five element types) and then writes each coordinate (batch, out_ch,
out_y, out_x) with batch < input.batch_size and out_ch <
config.output_channels exactly once through neurax_set_tensor_value
at flat index ((batch * H + y) * W + x) * C + out_ch, the indices
being pairwise distinct; the buffer is modelled directly by flat
index: written positions carry the stored (saturated) result value,
unwritten positions keep 0.  When config.output_channels exceeds
output.channels the C writes would be out of bounds (undefined
behaviour); no settled statement uses that case. -/
def conv_output_data (tanhf expf : ℚ → ℚ) (input weights : neurax_tensor_t)
    (bias : Option neurax_tensor_t) (config : neurax_conv_config_t)
    (output : neurax_tensor_t) : List ℚ :=
  (List.range output.data.length).map (fun i =>
    let c := i % output.channels
    let x := i / output.channels % output.width
    let y := i / (output.channels * output.width) % output.height
    let b := i / (output.channels * output.width * output.height)
    if b < input.batch_size ∧ c < config.output_channels then
      match output.data_type with
      | NEURAX_DATA_UINT8 =>
          (ratTrunc (max 0 (min 255 (conv_result_value tanhf expf input weights bias config b c y x))) : ℚ)
      | NEURAX_DATA_INT8 =>
          (ratTrunc (max (-128) (min 127 (conv_result_value tanhf expf input weights bias config b c y x))) : ℚ)
      | NEURAX_DATA_UINT16 =>
          (ratTrunc (max 0 (min 65535 (conv_result_value tanhf expf input weights bias config b c y x))) : ℚ)
      | NEURAX_DATA_INT16 =>
          (ratTrunc (max (-32768) (min 32767 (conv_result_value tanhf expf input weights bias config b c y x))) : ℚ)
      | NEURAX_DATA_FLOAT32 =>
          conv_result_value tanhf expf input weights bias config b c y x
    else 0)

/-- CPU convolution, from neurax_conv2d.c (neurax_cpu_conv2d): compute
the output dimensions in uint32 arithmetic, fail with InvalidParam
when the caller-supplied output tensor does not match them (without
touching the output), otherwise overwrite the output buffer with the
convolution results and return success.  The C function returns an
error code and mutates the output in place; the model returns the
pair of the code and the output tensor after the call. -/
def neurax_cpu_conv2d (tanhf expf : ℚ → ℚ) (input weights : neurax_tensor_t)
    (bias : Option neurax_tensor_t) (config : neurax_conv_config_t)
    (output : neurax_tensor_t) : neurax_error_t × neurax_tensor_t :=
  let out_height := conv_out_height input config
  let out_width := conv_out_width input config
  if output.height ≠ out_height ∨ output.width ≠ out_width then
    (NEURAX_ERROR_INVALID_PARAM, output)
  else
    (NEURAX_SUCCESS,
     { output with data := conv_output_data tanhf expf input weights bias config output })

/-- Output height computed by neurax_cpu_pooling (neurax_layers.c line
181): uint32 evaluation of (height - pool_height) / stride_y + 1. -/
def pool_out_height (input : neurax_tensor_t) (config : neurax_pool_config_t) : Nat :=
  add32 (sub32 input.height config.pool_height / config.stride_y) 1

/-- Output width computed by neurax_cpu_pooling (neurax_layers.c line
182), the x-axis analogue of pool_out_height. -/
def pool_out_width (input : neurax_tensor_t) (config : neurax_pool_config_t) : Nat :=
  add32 (sub32 input.width config.pool_width / config.stride_x) 1

/-- Largest finite float value FLT_MAX = 2 ^ 128 - 2 ^ 104, the
initial running maximum (negated) of the max-pooling scan. -/
def FLT_MAX : ℚ := 340282346638528859811704183484516925440

/-- Window scan of neurax_cpu_pooling (neurax_layers.c lines 198-227)
for one output coordinate: returns the pair of the running pool
result and the count of in-bounds taps visited.  Max pooling takes
the tap value when it exceeds the running result or when no tap has
been visited yet; average pooling sums the taps. -/
def pool_window_scan (input : neurax_tensor_t) (config : neurax_pool_config_t)
    (batch ch out_y out_x : Nat) : ℚ × Nat :=
  (List.range config.pool_height).foldl (fun acc0 py =>
    (List.range config.pool_width).foldl (fun acc1 px =>
      let in_y := out_y * config.stride_y + py
      let in_x := out_x * config.stride_x + px
      if in_y < input.height ∧ in_x < input.width then
        let value := neurax_get_tensor_value input batch in_y in_x ch
        let pr :=
          if config.pool_type = 0 then
            (if value > acc1.1 ∨ acc1.2 = 0 then value else acc1.1)
          else acc1.1 + value
        (pr, acc1.2 + 1)
      else acc1) acc0)
    ((if config.pool_type = 0 then -FLT_MAX else 0), 0)

/-- Finalized pooling value for one output coordinate, from
neurax_layers.c lines 229-232: for average pooling with at least one
visited tap, divide the sum by the visited count. -/
def pool_result_value (input : neurax_tensor_t) (config : neurax_pool_config_t)
    (batch ch out_y out_x : Nat) : ℚ :=
  let scan := pool_window_scan input config batch ch out_y out_x
  if config.pool_type = 1 ∧ scan.2 > 0 then scan.1 / scan.2 else scan.1

/-- Output buffer produced by the pooling loop nest of
neurax_cpu_pooling (neurax_layers.c lines 189-239), modelled by flat
index exactly as conv_output_data: the C code zeroes the buffer and
writes each coordinate (batch, ch, out_y, out_x) with batch <
input.batch_size and ch < input.channels once through
neurax_set_tensor_value. -/
def pool_output_data (input : neurax_tensor_t) (config : neurax_pool_config_t)
    (output : neurax_tensor_t) : List ℚ :=
  (List.range output.data.length).map (fun i =>
    let c := i % output.channels
    let x := i / output.channels % output.width
    let y := i / (output.channels * output.width) % output.height
    let b := i / (output.channels * output.width * output.height)
    if b < input.batch_size ∧ c < input.channels then
      match output.data_type with
      | NEURAX_DATA_UINT8 =>
          (ratTrunc (max 0 (min 255 (pool_result_value input config b c y x))) : ℚ)
      | NEURAX_DATA_INT8 =>
          (ratTrunc (max (-128) (min 127 (pool_result_value input config b c y x))) : ℚ)
      | NEURAX_DATA_UINT16 =>
          (ratTrunc (max 0 (min 65535 (pool_result_value input config b c y x))) : ℚ)
      | NEURAX_DATA_INT16 =>
          (ratTrunc (max (-32768) (min 32767 (pool_result_value input config b c y x))) : ℚ)
      | NEURAX_DATA_FLOAT32 =>
          pool_result_value input config b c y x
    else 0)

/-- CPU pooling, from neurax_layers.c (neurax_cpu_pooling): compute
output dimensions in uint32 arithmetic, fail with InvalidParam on a
mismatching output tensor, otherwise overwrite the output buffer. -/
def neurax_cpu_pooling (input : neurax_tensor_t) (config : neurax_pool_config_t)
    (output : neurax_tensor_t) : neurax_error_t × neurax_tensor_t :=
  let out_height := pool_out_height input config
  let out_width := pool_out_width input config
  if output.height ≠ out_height ∨ output.width ≠ out_width then
    (NEURAX_ERROR_INVALID_PARAM, output)
  else
    (NEURAX_SUCCESS, { output with data := pool_output_data input config output })

/-- CPU activation, from neurax_layers.c (neurax_cpu_activation): for
every flat index below the total element count of the input, write
the activated input element into the output through
neurax_set_tensor_element, in index order. -/
def neurax_cpu_activation (tanhf expf : ℚ → ℚ) (input : neurax_tensor_t)
    (activation : Nat) (output : neurax_tensor_t) : neurax_error_t × neurax_tensor_t :=
  (NEURAX_SUCCESS,
   (List.range (neurax_tensor_total_elements input)).foldl (fun out i =>
     neurax_set_tensor_element out i
       (neurax_apply_activation tanhf expf (neurax_get_tensor_element input i) activation)) output)

/-- Element written by the destination switch of
neurax_convert_data_type (neurax_utils.c lines 326-343); the same
clamp-and-cast stores as the tensor setters, float32 unchanged. -/
def convert_write_element (dst_type : neurax_data_type_t) (value : ℚ) : ℚ :=
  match dst_type with
  | NEURAX_DATA_UINT8 => (ratTrunc (max 0 (min 255 value)) : ℚ)
  | NEURAX_DATA_INT8 => (ratTrunc (max (-128) (min 127 value)) : ℚ)
  | NEURAX_DATA_UINT16 => (ratTrunc (max 0 (min 65535 value)) : ℚ)
  | NEURAX_DATA_INT16 => (ratTrunc (max (-32768) (min 32767 value)) : ℚ)
  | NEURAX_DATA_FLOAT32 => value

/-- Type conversion, from neurax_utils.c (neurax_convert_data_type):
num_elements = 0 fails with InvalidParam; identical types perform a
direct copy (memcpy) with no value pass; otherwise each element is
read (promoted to float) and rewritten with the destination switch.
The source switch of lines 308-324 promotes the stored element value
in every branch, so it is the element itself in the model.  The
result list holds the num_elements values written to the destination
buffer; the null-pointer checks are not modelled. -/
def neurax_convert_data_type (src : List ℚ) (src_type : neurax_data_type_t)
    (dst_type : neurax_data_type_t) (num_elements : Nat) : neurax_error_t × List ℚ :=
  if num_elements = 0 then
    (NEURAX_ERROR_INVALID_PARAM, [])
  else if src_type = dst_type then
    (NEURAX_SUCCESS, (List.range num_elements).map (fun i => src.getD i 0))
  else
    (NEURAX_SUCCESS, (List.range num_elements).map (fun i =>
      convert_write_element dst_type (src.getD i 0)))

/-- Device configuration, from neurax.h (neurax_config_t). -/
structure neurax_config_t where
  base_address : Nat
  memory_size : Nat
  use_hardware : Bool
  max_kernel_size : Nat
  num_multipliers : Nat
  data_type : neurax_data_type_t
deriving DecidableEq, Repr

/-- Device record, from neurax_private.h (struct neurax_device).  The
file descriptor and the mapped-memory pointers are operating-system
handles with no logical content beyond the hardware_available flag
they determine, and are not carried in the model. -/
structure neurax_device_t where
  config : neurax_config_t
  initialized : Bool
  hardware_available : Bool
deriving DecidableEq, Repr

/-- Register byte offsets, from neurax_private.h. -/
def NEURAX_REG_CONTROL : Nat := 0
def NEURAX_REG_STATUS : Nat := 4
def NEURAX_REG_CONV_CONFIG : Nat := 8
def NEURAX_REG_POOL_CONFIG : Nat := 12
def NEURAX_REG_ACT_CONFIG : Nat := 16
def NEURAX_REG_DIM_CONFIG : Nat := 20

/-- Control register bits, from neurax_private.h. -/
def CTRL_START : Nat := 1
def CTRL_RESET : Nat := 2
def CTRL_CONV_EN : Nat := 4
def CTRL_POOL_EN : Nat := 8
def CTRL_ACT_EN : Nat := 16
def CTRL_DATA_WIDTH : Nat := 32

/-- Status register bits, from neurax_private.h. -/
def STAT_BUSY : Nat := 1
def STAT_DONE : Nat := 2
def STAT_ERROR : Nat := 4

/-- Default polling timeout NEURAX_DEFAULT_TIMEOUT_MS, from
neurax_private.h. -/
def NEURAX_DEFAULT_TIMEOUT_MS : Nat := 5000

/-- One observable register access of the memory-mapped window. -/
inductive reg_op where
  | write (offset value : Nat)
  | read (offset : Nat)
deriving DecidableEq, Repr

/-- Register write, from neurax_core.c (neurax_write_reg): the store
reaches the hardware window only when hardware is available; in
emulation it is a no-op.  The model records the emitted access. -/
def neurax_write_reg (device : neurax_device_t) (offset value : Nat) : List reg_op :=
  if device.hardware_available then [reg_op.write offset value] else []

/-- Number of iterations of the polling loop of
neurax_wait_for_completion for a given timeout: the loop body runs
while elapsed < timeout_ms * 1000 with elapsed advancing by 100
microseconds, both held in uint32.  Faithful for timeouts whose
elapsed counter does not itself wrap (all timeouts used by the
library). -/
def neurax_poll_budget (timeout_ms : Nat) : Nat :=
  (timeout_ms * 1000 % U32_MOD + 99) / 100

/-- Polling loop of neurax_wait_for_completion (neurax_core.c lines
283-296) over a stream of status-register values, one per poll: an
error bit stops with HardwareFailure, otherwise a done bit stops with
success, otherwise the next interval is polled; an exhausted budget
yields Timeout.  Returns the trace of status reads with the
outcome. -/
def neurax_wait_poll (statusReads : Nat → Nat) : Nat → Nat → List reg_op × neurax_error_t
  | _, 0 => ([], NEURAX_ERROR_TIMEOUT)
  | k, Nat.succ n =>
    let status := statusReads k
    if status &&& STAT_ERROR ≠ 0 then
      ([reg_op.read NEURAX_REG_STATUS], NEURAX_ERROR_HARDWARE_FAILURE)
    else if status &&& STAT_DONE ≠ 0 then
      ([reg_op.read NEURAX_REG_STATUS], NEURAX_SUCCESS)
    else
      let rest := neurax_wait_poll statusReads (k + 1) n
      (reg_op.read NEURAX_REG_STATUS :: rest.1, rest.2)

/-- Completion wait, from neurax_core.c (neurax_wait_for_completion):
immediate success without hardware, otherwise the 100-microsecond
polling loop up to the timeout budget. -/
def neurax_wait_for_completion (device : neurax_device_t) (statusReads : Nat → Nat)
    (timeout_ms : Nat) : List reg_op × neurax_error_t :=
  if device.hardware_available = false then ([], NEURAX_SUCCESS)
  else neurax_wait_poll statusReads 0 (neurax_poll_budget timeout_ms)

/-- Convolution-config register encoding, from neurax_hw_conv2d
(neurax_conv2d.c lines 72-77) through the bit fields of
neurax_conv_config_reg_t: kernel-size-minus-one in bits 3:0,
stride-minus-one in bits 6:4, padding in bits 8:7, bias enable in bit
9, input-channels-minus-one in bits 12:10; each bit-field assignment
truncates to the field width, and the minus-one forms wrap in
uint32. -/
def conv_config_raw (config : neurax_conv_config_t) : Nat :=
  sub32 config.kernel_width 1 % 16 |||
  (sub32 config.stride_x 1 % 8) <<< 4 |||
  (config.padding_x % 4) <<< 7 |||
  (if config.use_bias then 1 else 0) <<< 9 |||
  (sub32 config.input_channels 1 % 8) <<< 10

/-- Dimension-config register encoding: width in the low 16 bits,
height in the high 16 bits.  Written through the bit fields of
neurax_dim_config_reg_t by neurax_hw_conv2d (neurax_conv2d.c lines
82-85) and by the equivalent explicit mask-and-shift expression of
neurax_hw_pooling (neurax_layers.c line 151). -/
def dim_config_raw (input : neurax_tensor_t) : Nat :=
  input.width % 65536 ||| (input.height % 65536) <<< 16

/-- Activation-config register encoding: selector in bits 1:0,
written through neurax_act_config_reg_t by neurax_hw_conv2d
(neurax_conv2d.c lines 88-90) and as activation & 0x3 by
neurax_hw_activation (neurax_layers.c line 59). -/
def act_config_raw (activation : Nat) : Nat :=
  activation % 4

/-- Control word assembled by neurax_hw_conv2d (neurax_conv2d.c lines
93-100): data-width bit for 16-bit element types, convolution enable,
activation enable when the activation is not LINEAR; the start bit is
not set. -/
def conv_control_raw (input : neurax_tensor_t) (config : neurax_conv_config_t) : Nat :=
  (if input.data_type = NEURAX_DATA_UINT16 ∨ input.data_type = NEURAX_DATA_INT16 then CTRL_DATA_WIDTH else 0) |||
  CTRL_CONV_EN |||
  (if config.activation ≠ 3 then CTRL_ACT_EN else 0)

/-- Hardware convolution leg, from neurax_conv2d.c (neurax_hw_conv2d):
write the convolution, dimension and activation config registers and
the control word (without the start bit), then — DMA transfer being
unimplemented — fall back to the CPU kernel unconditionally.  No
status polling occurs. -/
def neurax_hw_conv2d (tanhf expf : ℚ → ℚ) (device : neurax_device_t)
    (input weights : neurax_tensor_t) (bias : Option neurax_tensor_t)
    (config : neurax_conv_config_t) (output : neurax_tensor_t) :
    List reg_op × neurax_error_t × neurax_tensor_t :=
  let trace :=
    neurax_write_reg device NEURAX_REG_CONV_CONFIG (conv_config_raw config) ++
    neurax_write_reg device NEURAX_REG_DIM_CONFIG (dim_config_raw input) ++
    neurax_write_reg device NEURAX_REG_ACT_CONFIG (act_config_raw config.activation) ++
    neurax_write_reg device NEURAX_REG_CONTROL (conv_control_raw input config)
  (trace, neurax_cpu_conv2d tanhf expf input weights bias config output)

/-- Pooling-config register encoding, from neurax_hw_pooling
(neurax_layers.c lines 143-146): pool type in bit 0,
pool-size-minus-two in bits 3:1, stride-minus-one in bits 6:4. -/
def pool_config_raw (config : neurax_pool_config_t) : Nat :=
  config.pool_type % 2 |||
  (sub32 config.pool_width 2 &&& 7) <<< 1 |||
  (sub32 config.stride_x 1 &&& 7) <<< 4

/-- Control word assembled by neurax_hw_pooling (neurax_layers.c
lines 155-158) before the start bit is added. -/
def pool_control_raw (input : neurax_tensor_t) : Nat :=
  CTRL_POOL_EN |||
  (if input.data_type = NEURAX_DATA_UINT16 ∨ input.data_type = NEURAX_DATA_INT16 then CTRL_DATA_WIDTH else 0)

/-- Hardware pooling leg, from neurax_layers.c (neurax_hw_pooling):
write the pooling and dimension config registers, write the control
word with the start bit, wait for completion; a non-success wait
outcome is returned as the outcome of the call without running the
CPU kernel, otherwise the CPU kernel runs and its result is
returned. -/
def neurax_hw_pooling (device : neurax_device_t) (statusReads : Nat → Nat)
    (input : neurax_tensor_t) (config : neurax_pool_config_t)
    (output : neurax_tensor_t) : List reg_op × neurax_error_t × neurax_tensor_t :=
  let trace :=
    neurax_write_reg device NEURAX_REG_POOL_CONFIG (pool_config_raw config) ++
    neurax_write_reg device NEURAX_REG_DIM_CONFIG (dim_config_raw input) ++
    neurax_write_reg device NEURAX_REG_CONTROL (pool_control_raw input ||| CTRL_START)
  let wait := neurax_wait_for_completion device statusReads NEURAX_DEFAULT_TIMEOUT_MS
  if wait.2 ≠ NEURAX_SUCCESS then
    (trace ++ wait.1, wait.2, output)
  else
    (trace ++ wait.1, neurax_cpu_pooling input config output)

/-- Control word assembled by neurax_hw_activation (neurax_layers.c
lines 63-66) before the start bit is added. -/
def act_control_raw (input : neurax_tensor_t) : Nat :=
  CTRL_ACT_EN |||
  (if input.data_type = NEURAX_DATA_UINT16 ∨ input.data_type = NEURAX_DATA_INT16 then CTRL_DATA_WIDTH else 0)

/-- Hardware activation leg, from neurax_layers.c
(neurax_hw_activation): write the activation config register, write
the control word with the start bit, wait for completion; a
non-success wait outcome is returned without running the CPU kernel,
otherwise the CPU kernel runs. -/
def neurax_hw_activation (tanhf expf : ℚ → ℚ) (device : neurax_device_t)
    (statusReads : Nat → Nat) (input : neurax_tensor_t) (activation : Nat)
    (output : neurax_tensor_t) : List reg_op × neurax_error_t × neurax_tensor_t :=
  let trace :=
    neurax_write_reg device NEURAX_REG_ACT_CONFIG (activation &&& 3) ++
    neurax_write_reg device NEURAX_REG_CONTROL (act_control_raw input ||| CTRL_START)
  let wait := neurax_wait_for_completion device statusReads NEURAX_DEFAULT_TIMEOUT_MS
  if wait.2 ≠ NEURAX_SUCCESS then
    (trace ++ wait.1, wait.2, output)
  else
    (trace ++ wait.1, neurax_cpu_activation tanhf expf input activation output)

/-- Top-level convolution entry point, from neurax_conv2d.c
(neurax_conv2d): device-initialization check, tensor and
configuration validation, conditional bias validation, then dispatch
to the hardware leg when hardware is available and enabled by the
device configuration, and to the CPU kernel otherwise.  Returns the
register trace, the error code and the output tensor after the
call. -/
def neurax_conv2d (tanhf expf : ℚ → ℚ) (device : neurax_device_t)
    (statusReads : Nat → Nat) (input weights : neurax_tensor_t)
    (bias : Option neurax_tensor_t) (config : neurax_conv_config_t)
    (output : neurax_tensor_t) : List reg_op × neurax_error_t × neurax_tensor_t :=
  if device.initialized = false then ([], NEURAX_ERROR_NOT_INITIALIZED, output)
  else if neurax_validate_tensor input ≠ NEURAX_SUCCESS then
    ([], neurax_validate_tensor input, output)
  else if neurax_validate_tensor weights ≠ NEURAX_SUCCESS then
    ([], neurax_validate_tensor weights, output)
  else if neurax_validate_tensor output ≠ NEURAX_SUCCESS then
    ([], neurax_validate_tensor output, output)
  else if neurax_validate_conv_config config ≠ NEURAX_SUCCESS then
    ([], neurax_validate_conv_config config, output)
  else if (match bias with
           | some b => if config.use_bias then neurax_validate_tensor b else NEURAX_SUCCESS
           | none => NEURAX_SUCCESS) ≠ NEURAX_SUCCESS then
    ([], (match bias with
          | some b => if config.use_bias then neurax_validate_tensor b else NEURAX_SUCCESS
          | none => NEURAX_SUCCESS), output)
  else if device.hardware_available = true ∧ device.config.use_hardware = true then
    neurax_hw_conv2d tanhf expf device input weights bias config output
  else
    ([], neurax_cpu_conv2d tanhf expf input weights bias config output)

/-- Top-level pooling entry point, from neurax_layers.c
(neurax_pooling). -/
def neurax_pooling (device : neurax_device_t) (statusReads : Nat → Nat)
    (input : neurax_tensor_t) (config : neurax_pool_config_t)
    (output : neurax_tensor_t) : List reg_op × neurax_error_t × neurax_tensor_t :=
  if device.initialized = false then ([], NEURAX_ERROR_NOT_INITIALIZED, output)
  else if neurax_validate_tensor input ≠ NEURAX_SUCCESS then
    ([], neurax_validate_tensor input, output)
  else if neurax_validate_tensor output ≠ NEURAX_SUCCESS then
    ([], neurax_validate_tensor output, output)
  else if neurax_validate_pool_config config ≠ NEURAX_SUCCESS then
    ([], neurax_validate_pool_config config, output)
  else if device.hardware_available = true ∧ device.config.use_hardware = true then
    neurax_hw_pooling device statusReads input config output
  else
    ([], neurax_cpu_pooling input config output)

/-- Top-level activation entry point, from neurax_layers.c
(neurax_activation): after tensor validation, mismatching width,
height, channels or batch size between input and output fails with
InvalidParam before any element computation; otherwise dispatch as
the other operations. -/
def neurax_activation (tanhf expf : ℚ → ℚ) (device : neurax_device_t)
    (statusReads : Nat → Nat) (input : neurax_tensor_t) (activation : Nat)
    (output : neurax_tensor_t) : List reg_op × neurax_error_t × neurax_tensor_t :=
  if device.initialized = false then ([], NEURAX_ERROR_NOT_INITIALIZED, output)
  else if neurax_validate_tensor input ≠ NEURAX_SUCCESS then
    ([], neurax_validate_tensor input, output)
  else if neurax_validate_tensor output ≠ NEURAX_SUCCESS then
    ([], neurax_validate_tensor output, output)
  else if input.width ≠ output.width ∨ input.height ≠ output.height ∨
          input.channels ≠ output.channels ∨ input.batch_size ≠ output.batch_size then
    ([], NEURAX_ERROR_INVALID_PARAM, output)
  else if device.hardware_available = true ∧ device.config.use_hardware = true then
    neurax_hw_activation tanhf expf device statusReads input activation output
  else
    ([], neurax_cpu_activation tanhf expf input activation output)

/-- Outcome of the hardware probe performed by neurax_device_open:
the two device-node open attempts and the memory mapping. -/
structure hw_probe where
  dev_fd : Option Nat
  uio_fd : Option Nat
  mmap_ok : Bool
deriving DecidableEq, Repr

/-- Device open, from neurax_core.c (neurax_device_open): when both
device nodes fail to open, or the memory mapping fails, the device
degrades to emulation (hardware_available false) and the call still
returns success; only a full probe success sets hardware_available.
All paths of the C function return success. -/
def neurax_device_open (probe : hw_probe) (device : neurax_device_t) :
    neurax_error_t × neurax_device_t :=
  match probe.dev_fd, probe.uio_fd with
  | none, none => (NEURAX_SUCCESS, { device with hardware_available := false })
  | _, _ =>
    if probe.mmap_ok = false then
      (NEURAX_SUCCESS, { device with hardware_available := false })
    else
      (NEURAX_SUCCESS, { device with hardware_available := true })

/-- Library initialization, from neurax_core.c (neurax_init):
allocate the device record with the caller configuration, open the
device (which never fails), issue the reset pulse (a pair of control
register writes, no-ops in emulation), mark initialized and return
success.  The allocation-failure path is not modelled. -/
def neurax_init (probe : hw_probe) (config : neurax_config_t) :
    List reg_op × neurax_error_t × neurax_device_t :=
  let dev0 : neurax_device_t :=
    { config := config, initialized := false, hardware_available := false }
  let opened := neurax_device_open probe dev0
  if opened.1 ≠ NEURAX_SUCCESS then ([], opened.1, dev0)
  else
    let trace := neurax_write_reg opened.2 NEURAX_REG_CONTROL CTRL_RESET ++
                 neurax_write_reg opened.2 NEURAX_REG_CONTROL 0
    (trace, NEURAX_SUCCESS, { opened.2 with initialized := true })

/-- Modelled from the spec: the software-only reference result of the
convolution operation — the checks of the entry point followed by the
CPU kernel, with no hardware involvement.  Used to compare the
behaviour of an emulated device against the pure software path. -/
def neurax_sw_conv2d (tanhf expf : ℚ → ℚ) (input weights : neurax_tensor_t)
    (bias : Option neurax_tensor_t) (config : neurax_conv_config_t)
    (output : neurax_tensor_t) : neurax_error_t × neurax_tensor_t :=
  if neurax_validate_tensor input ≠ NEURAX_SUCCESS then
    (neurax_validate_tensor input, output)
  else if neurax_validate_tensor weights ≠ NEURAX_SUCCESS then
    (neurax_validate_tensor weights, output)
  else if neurax_validate_tensor output ≠ NEURAX_SUCCESS then
    (neurax_validate_tensor output, output)
  else if neurax_validate_conv_config config ≠ NEURAX_SUCCESS then
    (neurax_validate_conv_config config, output)
  else if (match bias with
           | some b => if config.use_bias then neurax_validate_tensor b else NEURAX_SUCCESS
           | none => NEURAX_SUCCESS) ≠ NEURAX_SUCCESS then
    ((match bias with
      | some b => if config.use_bias then neurax_validate_tensor b else NEURAX_SUCCESS
      | none => NEURAX_SUCCESS), output)
  else
    neurax_cpu_conv2d tanhf expf input weights bias config output

/-- Modelled from the spec: the software-only reference result of the
pooling operation. -/
def neurax_sw_pooling (input : neurax_tensor_t) (config : neurax_pool_config_t)
    (output : neurax_tensor_t) : neurax_error_t × neurax_tensor_t :=
  if neurax_validate_tensor input ≠ NEURAX_SUCCESS then
    (neurax_validate_tensor input, output)
  else if neurax_validate_tensor output ≠ NEURAX_SUCCESS then
    (neurax_validate_tensor output, output)
  else if neurax_validate_pool_config config ≠ NEURAX_SUCCESS then
    (neurax_validate_pool_config config, output)
  else
    neurax_cpu_pooling input config output

/-- Modelled from the spec: the software-only reference result of the
activation operation. -/
def neurax_sw_activation (tanhf expf : ℚ → ℚ) (input : neurax_tensor_t)
    (activation : Nat) (output : neurax_tensor_t) : neurax_error_t × neurax_tensor_t :=
  if neurax_validate_tensor input ≠ NEURAX_SUCCESS then
    (neurax_validate_tensor input, output)
  else if neurax_validate_tensor output ≠ NEURAX_SUCCESS then
    (neurax_validate_tensor output, output)
  else if input.width ≠ output.width ∨ input.height ≠ output.height ∨
          input.channels ≠ output.channels ∨ input.batch_size ≠ output.batch_size then
    (NEURAX_ERROR_INVALID_PARAM, output)
  else
    neurax_cpu_activation tanhf expf input activation output

/-- Claimed store rule, written from the words of the specification:
clamp the value to the representable range of the destination type
and then round toward the nearest integer; float32 unchanged.  Kept
separate from the code-derived setters so the two can be compared. -/
def spec_store_round (t : neurax_data_type_t) (value : ℚ) : ℚ :=
  match t with
  | NEURAX_DATA_UINT8 => (round (max 0 (min 255 value)) : ℚ)
  | NEURAX_DATA_INT8 => (round (max (-128) (min 127 value)) : ℚ)
  | NEURAX_DATA_UINT16 => (round (max 0 (min 65535 value)) : ℚ)
  | NEURAX_DATA_INT16 => (round (max (-32768) (min 32767 value)) : ℚ)
  | NEURAX_DATA_FLOAT32 => value

/-- Code store rule factored once for comparison against the three
write sites: clamp to [lo, hi], then truncate toward zero. -/
def clamp_trunc (lo hi value : ℚ) : ℚ :=
  (ratTrunc (max lo (min hi value)) : ℚ)

/-- Lower bound of the representable range per destination type, from
the clamp constants of the specification (and of the code). -/
def type_range_lo (t : neurax_data_type_t) : ℚ :=
  match t with
  | NEURAX_DATA_UINT8 => 0
  | NEURAX_DATA_INT8 => -128
  | NEURAX_DATA_UINT16 => 0
  | NEURAX_DATA_INT16 => -32768
  | NEURAX_DATA_FLOAT32 => 0

/-- Upper bound of the representable range per destination type. -/
def type_range_hi (t : neurax_data_type_t) : ℚ :=
  match t with
  | NEURAX_DATA_UINT8 => 255
  | NEURAX_DATA_INT8 => 127
  | NEURAX_DATA_UINT16 => 65535
  | NEURAX_DATA_INT16 => 32767
  | NEURAX_DATA_FLOAT32 => 0

/-- Claimed output dimension formula of the convolution, written from
the words of the specification: floor((in + 2 * pad - kernel) /
stride) + 1 over the integers. -/
def spec_conv_out_dim (inDim pad kernel stride : Nat) : ℤ :=
  ((inDim : ℤ) + 2 * pad - kernel).fdiv stride + 1

/-- Example device bound to hardware with hardware use enabled. -/
def c2_dev : neurax_device_t :=
  { config := { base_address := 0, memory_size := 65536, use_hardware := true,
                max_kernel_size := 11, num_multipliers := 64,
                data_type := NEURAX_DATA_FLOAT32 },
    initialized := true, hardware_available := true }

/-- Example 2 x 2 single-channel float32 input tensor. -/
def c2_input : neurax_tensor_t :=
  { data := [1, 2, 3, 4], width := 2, height := 2, channels := 1,
    batch_size := 1, data_type := NEURAX_DATA_FLOAT32, data_size := 16 }

/-- Example 2 x 2 max pooling with stride 2. -/
def c2_config : neurax_pool_config_t :=
  { pool_width := 2, pool_height := 2, stride_x := 2, stride_y := 2, pool_type := 0 }

/-- Example 1 x 1 float32 output tensor for c2_input pooling. -/
def c2_output : neurax_tensor_t :=
  { data := [0], width := 1, height := 1, channels := 1,
    batch_size := 1, data_type := NEURAX_DATA_FLOAT32, data_size := 4 }

/-- Example 1 x 1 single-channel float32 input tensor. -/
def c3_input : neurax_tensor_t :=
  { data := [5], width := 1, height := 1, channels := 1,
    batch_size := 1, data_type := NEURAX_DATA_FLOAT32, data_size := 4 }

/-- Example weight tensor for a 1 x 3 kernel (one output channel, one
input channel), addressed through the convolution convention. -/
def c3_weights : neurax_tensor_t :=
  { data := [0, 0, 0], width := 1, height := 3, channels := 1,
    batch_size := 1, data_type := NEURAX_DATA_FLOAT32, data_size := 12 }

/-- Validated configuration with kernel height 3 and stride_y 2,
exceeding the padded 1-pixel input height. -/
def c3_config : neurax_conv_config_t :=
  { kernel_width := 1, kernel_height := 3, stride_x := 1, stride_y := 2,
    padding_x := 0, padding_y := 0, input_channels := 1, output_channels := 1,
    use_bias := false, activation := 3 }

/-- Output tensor whose height is the uint32-wrapped kernel-computed
dimension 2147483648; its byte length matches its dimensions, so it
passes tensor validation. -/
def c3_output : neurax_tensor_t :=
  { data := [], width := 1, height := 2147483648, channels := 1,
    batch_size := 1, data_type := NEURAX_DATA_FLOAT32, data_size := 8589934592 }

/-- Example 3 x 3 single-channel float32 input tensor with distinct
values 1..9 in row-major order. -/
def c4_input : neurax_tensor_t :=
  { data := [1, 2, 3, 4, 5, 6, 7, 8, 9], width := 3, height := 3, channels := 1,
    batch_size := 1, data_type := NEURAX_DATA_FLOAT32, data_size := 36 }

/-- Example 2 x 2 average pooling with stride 2. -/
def c4_config : neurax_pool_config_t :=
  { pool_width := 2, pool_height := 2, stride_x := 2, stride_y := 2, pool_type := 1 }

/-- Example 1 x 1 float32 output tensor for c4_input pooling. -/
def c4_output : neurax_tensor_t :=
  { data := [0], width := 1, height := 1, channels := 1,
    batch_size := 1, data_type := NEURAX_DATA_FLOAT32, data_size := 4 }

/-- Example device bound to hardware with hardware use enabled. -/
def c5_dev : neurax_device_t :=
  { config := { base_address := 0, memory_size := 65536, use_hardware := true,
                max_kernel_size := 11, num_multipliers := 64,
                data_type := NEURAX_DATA_FLOAT32 },
    initialized := true, hardware_available := true }

/-- Example 4 x 4 single-channel float32 input tensor. -/
def c5_input : neurax_tensor_t :=
  { data := List.replicate 16 1, width := 4, height := 4, channels := 1,
    batch_size := 1, data_type := NEURAX_DATA_FLOAT32, data_size := 64 }

/-- Example weight tensor for a 3 x 3 kernel. -/
def c5_weights : neurax_tensor_t :=
  { data := List.replicate 9 1, width := 3, height := 3, channels := 1,
    batch_size := 1, data_type := NEURAX_DATA_FLOAT32, data_size := 36 }

/-- Example 3 x 3 convolution configuration, stride 1, padding 1,
linear activation. -/
def c5_config : neurax_conv_config_t :=
  { kernel_width := 3, kernel_height := 3, stride_x := 1, stride_y := 1,
    padding_x := 1, padding_y := 1, input_channels := 1, output_channels := 1,
    use_bias := false, activation := 3 }

/-- Example 4 x 4 float32 output tensor for c5 convolution. -/
def c5_output : neurax_tensor_t :=
  { data := List.replicate 16 0, width := 4, height := 4, channels := 1,
    batch_size := 1, data_type := NEURAX_DATA_FLOAT32, data_size := 64 }

/-- Example probe outcome with both device nodes absent. -/
def c7_probe : hw_probe :=
  { dev_fd := none, uio_fd := none, mmap_ok := true }

/-- Example device configuration requesting hardware use. -/
def c7_config : neurax_config_t :=
  { base_address := 1073741824, memory_size := 65536, use_hardware := true,
    max_kernel_size := 11, num_multipliers := 64, data_type := NEURAX_DATA_FLOAT32 }

/-- Example 2 x 2 single-channel float32 input tensor. -/
def c7_input : neurax_tensor_t :=
  { data := [4, 8, 2, 6], width := 2, height := 2, channels := 1,
    batch_size := 1, data_type := NEURAX_DATA_FLOAT32, data_size := 16 }

/-- Example 2 x 2 max pooling with stride 2. -/
def c7_pconfig : neurax_pool_config_t :=
  { pool_width := 2, pool_height := 2, stride_x := 2, stride_y := 2, pool_type := 0 }

/-- Example 1 x 1 float32 output tensor for c7_input pooling. -/
def c7_output : neurax_tensor_t :=
  { data := [0], width := 1, height := 1, channels := 1,
    batch_size := 1, data_type := NEURAX_DATA_FLOAT32, data_size := 4 }

/-- Example 2 x 2 single-channel float32 input tensor. -/
def c8_input : neurax_tensor_t :=
  { data := [10, 20, 30, 40], width := 2, height := 2, channels := 1,
    batch_size := 1, data_type := NEURAX_DATA_FLOAT32, data_size := 16 }

/-- Example 1 x 1 identity weight tensor holding the single value 1. -/
def c8_weights : neurax_tensor_t :=
  { data := [1], width := 1, height := 1, channels := 1,
    batch_size := 1, data_type := NEURAX_DATA_FLOAT32, data_size := 4 }

/-- Identity convolution configuration: 1 x 1 kernel, stride 1,
padding 0, one input and one output channel, no bias, linear
activation. -/
def c8_config : neurax_conv_config_t :=
  { kernel_width := 1, kernel_height := 1, stride_x := 1, stride_y := 1,
    padding_x := 0, padding_y := 0, input_channels := 1, output_channels := 1,
    use_bias := false, activation := 3 }

/-- Example 2 x 2 float32 output tensor for the identity convolution. -/
def c8_output : neurax_tensor_t :=
  { data := [0, 0, 0, 0], width := 2, height := 2, channels := 1,
    batch_size := 1, data_type := NEURAX_DATA_FLOAT32, data_size := 16 }

/-- Example emulated, initialized device. -/
def c10_dev : neurax_device_t :=
  { config := { base_address := 0, memory_size := 65536, use_hardware := false,
                max_kernel_size := 11, num_multipliers := 1,
                data_type := NEURAX_DATA_FLOAT32 },
    initialized := true, hardware_available := false }

/-- Example 2 x 1 single-channel float32 tensor. -/
def c10_input : neurax_tensor_t :=
  { data := [1, 2], width := 2, height := 1, channels := 1,
    batch_size := 1, data_type := NEURAX_DATA_FLOAT32, data_size := 8 }

/-- Example 1 x 1 float32 tensor whose width differs from c10_input. -/
def c10_output : neurax_tensor_t :=
  { data := [7], width := 1, height := 1, channels := 1,
    batch_size := 1, data_type := NEURAX_DATA_FLOAT32, data_size := 4 }

/-- Wrapped subtraction agrees with plain subtraction in-range. -/
theorem sub32_eq_of_le (a b : Nat) (hba : b ≤ a) (ha : a < U32_MOD) :
    sub32 a b = a - b := by
  unfold sub32
  rw [Nat.mod_eq_of_lt (lt_of_le_of_lt hba ha)]
  rw [show a + U32_MOD - b = (a - b) + U32_MOD by omega, Nat.add_mod_right]
  exact Nat.mod_eq_of_lt (by omega)

/-- Wrapped addition agrees with plain addition in-range. -/
theorem add32_eq_of_lt (a b : Nat) (h : a + b < U32_MOD) : add32 a b = a + b :=
  Nat.mod_eq_of_lt h

/-- Second component of a fold whose step adds k to it at every list
element. -/
theorem foldl_snd_add (f : ℚ × Nat → Nat → ℚ × Nat) (k : Nat) :
    ∀ (l : List Nat) (acc : ℚ × Nat),
      (∀ (a : ℚ × Nat) (x : Nat), x ∈ l → (f a x).2 = a.2 + k) →
      (l.foldl f acc).2 = acc.2 + k * l.length := by
  intro l
  induction l with
  | nil => intro acc _; simp
  | cons hd tl ih =>
    intro acc h
    rw [List.foldl_cons, ih _ (fun a x hx => h a x (List.mem_cons_of_mem _ hx)),
        h acc hd (List.mem_cons_self _ _), List.length_cons, Nat.mul_succ]
    omega

/-- Polling outcome when no poll inside the budget shows the done or
the error bit: every interval is read and the wait times out. -/
theorem wait_poll_quiet (statusReads : Nat → Nat) :
    ∀ (n k : Nat),
      (∀ j, j < n → statusReads (k + j) &&& STAT_ERROR = 0 ∧ statusReads (k + j) &&& STAT_DONE = 0) →
      neurax_wait_poll statusReads k n =
        (List.replicate n (reg_op.read NEURAX_REG_STATUS), NEURAX_ERROR_TIMEOUT) := by
  intro n
  induction n with
  | zero => intro k _; rfl
  | succ m ih =>
    intro k h
    have h0 := h 0 (Nat.succ_pos m)
    rw [Nat.add_zero] at h0
    have hrest := ih (k + 1) (fun j hj => by
      have := h (j + 1) (Nat.succ_lt_succ hj)
      rwa [show k + (j + 1) = k + 1 + j by omega] at this)
    simp only [neurax_wait_poll, h0.1, h0.2, ne_eq, not_true_eq_false, if_false,
               not_false_eq_true, hrest, List.replicate_succ]

/-- Polling outcome when the first eventful poll, at index j inside
the budget, shows the error bit: j + 1 intervals are read and the
wait reports HardwareFailure. -/
theorem wait_poll_first_error (statusReads : Nat → Nat) :
    ∀ (j n k : Nat), j < n →
      (∀ i, i < j → statusReads (k + i) &&& STAT_ERROR = 0 ∧ statusReads (k + i) &&& STAT_DONE = 0) →
      statusReads (k + j) &&& STAT_ERROR ≠ 0 →
      neurax_wait_poll statusReads k n =
        (List.replicate (j + 1) (reg_op.read NEURAX_REG_STATUS), NEURAX_ERROR_HARDWARE_FAILURE) := by
  intro j
  induction j with
  | zero =>
    intro n k hn _ herr
    rw [Nat.add_zero] at herr
    obtain ⟨m, rfl⟩ := Nat.exists_eq_succ_of_ne_zero (Nat.pos_iff_ne_zero.mp hn)
    simp [neurax_wait_poll, herr]
  | succ i ih =>
    intro n k hn hpre herr
    obtain ⟨m, rfl⟩ := Nat.exists_eq_succ_of_ne_zero (show n ≠ 0 by omega)
    have h0 := hpre 0 (Nat.succ_pos i)
    rw [Nat.add_zero] at h0
    have hrest := ih m (k + 1) (by omega)
      (fun i2 hi2 => by
        have := hpre (i2 + 1) (Nat.succ_lt_succ hi2)
        rwa [show k + (i2 + 1) = k + 1 + i2 by omega] at this)
      (by rwa [show k + 1 + i = k + (i + 1) by omega])
    simp [neurax_wait_poll, h0.1, h0.2, hrest, List.replicate_succ]

/-- Polling outcome when the first eventful poll, at index j inside
the budget, shows the done bit and not the error bit: j + 1 intervals
are read and the wait reports success. -/
theorem wait_poll_first_done (statusReads : Nat → Nat) :
    ∀ (j n k : Nat), j < n →
      (∀ i, i < j → statusReads (k + i) &&& STAT_ERROR = 0 ∧ statusReads (k + i) &&& STAT_DONE = 0) →
      statusReads (k + j) &&& STAT_ERROR = 0 →
      statusReads (k + j) &&& STAT_DONE ≠ 0 →
      neurax_wait_poll statusReads k n =
        (List.replicate (j + 1) (reg_op.read NEURAX_REG_STATUS), NEURAX_SUCCESS) := by
  intro j
  induction j with
  | zero =>
    intro n k hn _ herr hdone
    rw [Nat.add_zero] at herr hdone
    obtain ⟨m, rfl⟩ := Nat.exists_eq_succ_of_ne_zero (show n ≠ 0 by omega)
    simp [neurax_wait_poll, herr, hdone]
  | succ i ih =>
    intro n k hn hpre herr hdone
    obtain ⟨m, rfl⟩ := Nat.exists_eq_succ_of_ne_zero (show n ≠ 0 by omega)
    have h0 := hpre 0 (Nat.succ_pos i)
    rw [Nat.add_zero] at h0
    have hrest := ih m (k + 1) (by omega)
      (fun i2 hi2 => by
        have := hpre (i2 + 1) (Nat.succ_lt_succ hi2)
        rwa [show k + (i2 + 1) = k + 1 + i2 by omega] at this)
      (by rwa [show k + 1 + i = k + (i + 1) by omega])
      (by rwa [show k + 1 + i = k + (i + 1) by omega])
    simp [neurax_wait_poll, h0.1, h0.2, hrest, List.replicate_succ]

/-- Every access of the polling loop is a read of the status
register. -/
theorem wait_poll_reads_only (statusReads : Nat → Nat) :
    ∀ (n k : Nat) (op : reg_op), op ∈ (neurax_wait_poll statusReads k n).1 →
      op = reg_op.read NEURAX_REG_STATUS := by
  intro n
  induction n with
  | zero => intro k op h; simp [neurax_wait_poll] at h
  | succ m ih =>
    intro k op h
    by_cases he : statusReads k &&& STAT_ERROR ≠ 0
    · simp [neurax_wait_poll, he] at h
      simp [h]
    · by_cases hd : statusReads k &&& STAT_DONE ≠ 0
      · simp [neurax_wait_poll, he, hd] at h
        simp [h]
      · simp [neurax_wait_poll, he, hd] at h
        rcases h with h | h
        · simp [h]
        · exact ih (k + 1) op h

/-- Claim C6: validate_conv_config succeeds exactly when kernel width
and height are in [1, 11], both strides are in [1, 8], both channel
counts are nonzero, and the activation selector is inside the known
enumeration (at most LINEAR = 3); in particular it fails for kernel
size 0 or 13, stride 0 or 9, zero channels and out-of-range
activation, and succeeds at the boundary values 11 and 8. -/
theorem validate_conv_config_bounds (config : neurax_conv_config_t) :
    neurax_validate_conv_config config = NEURAX_SUCCESS ↔
      (1 ≤ config.kernel_width ∧ config.kernel_width ≤ 11 ∧
       1 ≤ config.kernel_height ∧ config.kernel_height ≤ 11 ∧
       1 ≤ config.stride_x ∧ config.stride_x ≤ 8 ∧
       1 ≤ config.stride_y ∧ config.stride_y ≤ 8 ∧
       1 ≤ config.input_channels ∧ 1 ≤ config.output_channels ∧
       config.activation ≤ 3) := by
  unfold neurax_validate_conv_config
  split_ifs with h1 h2 h3 h4 h5 h6 <;> simp_all <;> omega

/-- Claim C1 (counterexample): storing the value 1.7 into a uint8
tensor element keeps 1, while the claimed clamp-then-round-to-nearest
rule yields 2; the code truncates toward zero instead of rounding to
the nearest integer. -/
theorem store_truncates_counterexample :
    (neurax_set_tensor_element
        { data := [0], width := 1, height := 1, channels := 1, batch_size := 1,
          data_type := NEURAX_DATA_UINT8, data_size := 1 } 0 (17 / 10)).data = [1] ∧
    spec_store_round NEURAX_DATA_UINT8 (17 / 10) = 2 ∧ (1 : ℚ) ≠ 2 := by
  refine ⟨?_, ?_, by norm_num⟩
  · norm_num [neurax_set_tensor_element, ratTrunc]
  · norm_num [spec_store_round, round_eq]

/-- Claim C1 (amended): every write of an element value — through the
coordinate setter, the flat-index setter, or the type-conversion
destination switch — stores the input clamped to the representable
range of the destination type (uint8 [0,255], int8 [-128,127], uint16
[0,65535], int16 [-32768,32767]) and then truncated toward zero;
float32 is stored unchanged. -/
theorem store_rule_uniform (tensor : neurax_tensor_t) (batch y x c index : Nat) (value : ℚ) :
    ((neurax_set_tensor_value tensor batch y x c value).data =
       tensor.data.set (((batch * tensor.height + y) * tensor.width + x) * tensor.channels + c)
         (if tensor.data_type = NEURAX_DATA_FLOAT32 then value
          else clamp_trunc (type_range_lo tensor.data_type) (type_range_hi tensor.data_type) value)) ∧
    ((neurax_set_tensor_element tensor index value).data =
       tensor.data.set index
         (if tensor.data_type = NEURAX_DATA_FLOAT32 then value
          else clamp_trunc (type_range_lo tensor.data_type) (type_range_hi tensor.data_type) value)) ∧
    (∀ t : neurax_data_type_t,
       convert_write_element t value =
         (if t = NEURAX_DATA_FLOAT32 then value
          else clamp_trunc (type_range_lo t) (type_range_hi t) value)) := by
  refine ⟨?_, ?_, ?_⟩
  · obtain ⟨d, w, h, ch, b, dt, sz⟩ := tensor
    cases dt <;> simp [neurax_set_tensor_value, clamp_trunc, type_range_lo, type_range_hi]
  · obtain ⟨d, w, h, ch, b, dt, sz⟩ := tensor
    cases dt <;> simp [neurax_set_tensor_element, clamp_trunc, type_range_lo, type_range_hi]
  · intro t
    cases t <;> simp [convert_write_element, clamp_trunc, type_range_lo, type_range_hi]

/-- Claim C9: the float32 to uint8 to float32 type-conversion round
trip maps every value below 0 to 0 and every value above 255 to 255 —
saturation at the boundary, not modular wrapping. -/
theorem convert_roundtrip_saturates (v : ℚ) (h : v < 0 ∨ 255 < v) :
    (neurax_convert_data_type
        (neurax_convert_data_type [v] NEURAX_DATA_FLOAT32 NEURAX_DATA_UINT8 1).2
        NEURAX_DATA_UINT8 NEURAX_DATA_FLOAT32 1).2 =
      [if v < 0 then (0 : ℚ) else 255] := by
  rcases h with h | h
  · have h255 : min 255 v = v := min_eq_right (by linarith)
    have h0 : max (0 : ℚ) v = 0 := max_eq_left (by linarith)
    simp [neurax_convert_data_type, convert_write_element, h255, h0, ratTrunc, h,
          List.range_succ]
  · have h255 : min (255 : ℚ) v = 255 := min_eq_left (by linarith)
    have h0 : max (0 : ℚ) (255 : ℚ) = 255 := max_eq_right (by norm_num)
    have hnot : ¬ v < 0 := by linarith
    simp [neurax_convert_data_type, convert_write_element, h255, h0, ratTrunc, hnot,
          List.range_succ]

/-- Witness for convert_roundtrip_saturates at the out-of-range value
300, which round-trips to the saturated boundary 255. -/
theorem convert_roundtrip_saturates_witness :
    (neurax_convert_data_type
        (neurax_convert_data_type [300] NEURAX_DATA_FLOAT32 NEURAX_DATA_UINT8 1).2
        NEURAX_DATA_UINT8 NEURAX_DATA_FLOAT32 1).2 = [(255 : ℚ)] := by
  have h := convert_roundtrip_saturates 300 (Or.inr (by norm_num))
  simpa using h

/-- Claim C10: on an initialized device, activation applied to valid
tensors whose width, height, channels or batch size differ returns
InvalidParam with no register traffic and the output tensor exactly
as supplied, before any element computation. -/
theorem activation_dim_mismatch_rejected (tanhf expf : ℚ → ℚ) (device : neurax_device_t)
    (statusReads : Nat → Nat) (input output : neurax_tensor_t) (activation : Nat)
    (hinit : device.initialized = true)
    (hin : neurax_validate_tensor input = NEURAX_SUCCESS)
    (hout : neurax_validate_tensor output = NEURAX_SUCCESS)
    (hdiff : input.width ≠ output.width ∨ input.height ≠ output.height ∨
             input.channels ≠ output.channels ∨ input.batch_size ≠ output.batch_size) :
    neurax_activation tanhf expf device statusReads input activation output =
      ([], NEURAX_ERROR_INVALID_PARAM, output) := by
  rcases hdiff with h | h | h | h <;>
    simp [neurax_activation, hinit, hin, hout, h]

/-- Witness for activation_dim_mismatch_rejected on tensors of widths
2 and 1. -/
theorem activation_dim_mismatch_rejected_witness :
    neurax_activation (fun q => q) (fun q => q) c10_dev (fun _ => 0) c10_input 0 c10_output =
      ([], NEURAX_ERROR_INVALID_PARAM, c10_output) :=
  activation_dim_mismatch_rejected (fun q => q) (fun q => q) c10_dev (fun _ => 0)
    c10_input c10_output 0 (by decide) (by decide) (by decide) (Or.inl (by decide))

/-- Claim C2 (amended): on a hardware-bound, hardware-enabled device,
the conv2d hardware leg performs no completion wait and always
returns the CPU kernel result, while for pooling and activation a
failed wait (error bit or timeout) aborts the call with that error
and the CPU kernel does not run; their CPU kernels run, and their
results are returned, only after a successful wait. -/
theorem hw_failure_handling (tanhf expf : ℚ → ℚ) (device : neurax_device_t)
    (statusReads : Nat → Nat) (input weights : neurax_tensor_t)
    (bias : Option neurax_tensor_t) (cconfig : neurax_conv_config_t)
    (pconfig : neurax_pool_config_t) (activation : Nat)
    (cout pout aout : neurax_tensor_t)
    (hhw : device.hardware_available = true)
    (huse : device.config.use_hardware = true) :
    ((neurax_hw_conv2d tanhf expf device input weights bias cconfig cout).2 =
       neurax_cpu_conv2d tanhf expf input weights bias cconfig cout) ∧
    ((neurax_wait_for_completion device statusReads NEURAX_DEFAULT_TIMEOUT_MS).2 ≠ NEURAX_SUCCESS →
       (neurax_hw_pooling device statusReads input pconfig pout).2 =
         ((neurax_wait_for_completion device statusReads NEURAX_DEFAULT_TIMEOUT_MS).2, pout)) ∧
    ((neurax_wait_for_completion device statusReads NEURAX_DEFAULT_TIMEOUT_MS).2 = NEURAX_SUCCESS →
       (neurax_hw_pooling device statusReads input pconfig pout).2 =
         neurax_cpu_pooling input pconfig pout) ∧
    ((neurax_wait_for_completion device statusReads NEURAX_DEFAULT_TIMEOUT_MS).2 ≠ NEURAX_SUCCESS →
       (neurax_hw_activation tanhf expf device statusReads input activation aout).2 =
         ((neurax_wait_for_completion device statusReads NEURAX_DEFAULT_TIMEOUT_MS).2, aout)) ∧
    ((neurax_wait_for_completion device statusReads NEURAX_DEFAULT_TIMEOUT_MS).2 = NEURAX_SUCCESS →
       (neurax_hw_activation tanhf expf device statusReads input activation aout).2 =
         neurax_cpu_activation tanhf expf input activation aout) := by
  refine ⟨rfl, ?_, ?_, ?_, ?_⟩ <;> intro hw <;>
    simp [neurax_hw_pooling, neurax_hw_activation, hw]

/-- Witness for hw_failure_handling: with the status error bit raised
at the first poll, the pooling hardware leg returns HardwareFailure
with the output tensor untouched. -/
theorem hw_failure_handling_witness :
    c2_dev.hardware_available = true ∧
    (neurax_hw_pooling c2_dev (fun _ => STAT_ERROR) c2_input c2_config c2_output).2 =
      (NEURAX_ERROR_HARDWARE_FAILURE, c2_output) := by
  have h := hw_failure_handling (fun q => q) (fun q => q) c2_dev (fun _ => STAT_ERROR)
      c2_input c2_input none ⟨1, 1, 1, 1, 0, 0, 1, 1, false, 3⟩ c2_config 0
      c2_output c2_output c2_output rfl rfl
  refine ⟨rfl, ?_⟩
  have h2 := h.2.1 (by decide)
  rw [h2]
  decide

/-- Claim C2 (counterexample): pooling invoked through the public
entry point on a hardware-bound, hardware-enabled device, with the
status register reporting the error bit, aborts with HardwareFailure
and the supplied output tensor unchanged — it does not run the CPU
kernel and return success. -/
theorem hw_failure_aborts_counterexample :
    (neurax_pooling c2_dev (fun _ => STAT_ERROR) c2_input c2_config c2_output).2 =
      (NEURAX_ERROR_HARDWARE_FAILURE, c2_output) ∧
    (NEURAX_ERROR_HARDWARE_FAILURE : neurax_error_t) ≠ NEURAX_SUCCESS := by
  exact ⟨by decide, by decide⟩

/-- Claim C5 (amended): on a hardware-bound device, pooling and
activation write their config registers and then the control register
with the operation enable bit and the start bit, then poll the status
register once per 100-microsecond interval: a budget with neither bit
raised yields Timeout after reading every interval, an error bit at
the first eventful poll yields HardwareFailure, a done bit there
yields success and only then the CPU kernel runs.  The conv2d leg
violates the claimed sequence and is settled by the separate
counterexample. -/
theorem hw_protocol_sequence (tanhf expf : ℚ → ℚ) (device : neurax_device_t)
    (statusReads : Nat → Nat) (input : neurax_tensor_t)
    (pconfig : neurax_pool_config_t) (activation : Nat) (pout aout : neurax_tensor_t)
    (hhw : device.hardware_available = true) :
    ((neurax_hw_pooling device statusReads input pconfig pout).1 =
       [reg_op.write NEURAX_REG_POOL_CONFIG (pool_config_raw pconfig),
        reg_op.write NEURAX_REG_DIM_CONFIG (dim_config_raw input),
        reg_op.write NEURAX_REG_CONTROL (pool_control_raw input ||| CTRL_START)] ++
       (neurax_wait_for_completion device statusReads NEURAX_DEFAULT_TIMEOUT_MS).1) ∧
    ((neurax_hw_activation tanhf expf device statusReads input activation aout).1 =
       [reg_op.write NEURAX_REG_ACT_CONFIG (activation &&& 3),
        reg_op.write NEURAX_REG_CONTROL (act_control_raw input ||| CTRL_START)] ++
       (neurax_wait_for_completion device statusReads NEURAX_DEFAULT_TIMEOUT_MS).1) ∧
    ((pool_control_raw input ||| CTRL_START) &&& CTRL_START = CTRL_START) ∧
    ((pool_control_raw input ||| CTRL_START) &&& CTRL_POOL_EN = CTRL_POOL_EN) ∧
    ((act_control_raw input ||| CTRL_START) &&& CTRL_START = CTRL_START) ∧
    ((act_control_raw input ||| CTRL_START) &&& CTRL_ACT_EN = CTRL_ACT_EN) ∧
    (∀ op ∈ (neurax_wait_for_completion device statusReads NEURAX_DEFAULT_TIMEOUT_MS).1,
       op = reg_op.read NEURAX_REG_STATUS) ∧
    ((∀ j, j < neurax_poll_budget NEURAX_DEFAULT_TIMEOUT_MS →
        statusReads j &&& STAT_ERROR = 0 ∧ statusReads j &&& STAT_DONE = 0) →
      neurax_wait_for_completion device statusReads NEURAX_DEFAULT_TIMEOUT_MS =
        (List.replicate (neurax_poll_budget NEURAX_DEFAULT_TIMEOUT_MS)
           (reg_op.read NEURAX_REG_STATUS), NEURAX_ERROR_TIMEOUT)) ∧
    (∀ j, j < neurax_poll_budget NEURAX_DEFAULT_TIMEOUT_MS →
       (∀ i, i < j → statusReads i &&& STAT_ERROR = 0 ∧ statusReads i &&& STAT_DONE = 0) →
       statusReads j &&& STAT_ERROR ≠ 0 →
       neurax_wait_for_completion device statusReads NEURAX_DEFAULT_TIMEOUT_MS =
         (List.replicate (j + 1) (reg_op.read NEURAX_REG_STATUS),
          NEURAX_ERROR_HARDWARE_FAILURE)) ∧
    (∀ j, j < neurax_poll_budget NEURAX_DEFAULT_TIMEOUT_MS →
       (∀ i, i < j → statusReads i &&& STAT_ERROR = 0 ∧ statusReads i &&& STAT_DONE = 0) →
       statusReads j &&& STAT_ERROR = 0 → statusReads j &&& STAT_DONE ≠ 0 →
       neurax_wait_for_completion device statusReads NEURAX_DEFAULT_TIMEOUT_MS =
         (List.replicate (j + 1) (reg_op.read NEURAX_REG_STATUS), NEURAX_SUCCESS) ∧
       (neurax_hw_pooling device statusReads input pconfig pout).2 =
         neurax_cpu_pooling input pconfig pout ∧
       (neurax_hw_activation tanhf expf device statusReads input activation aout).2 =
         neurax_cpu_activation tanhf expf input activation aout) := by
  refine ⟨?_, ?_, ?_, ?_, ?_, ?_, ?_, ?_, ?_, ?_⟩
  · by_cases hcase : (neurax_wait_for_completion device statusReads NEURAX_DEFAULT_TIMEOUT_MS).2 = NEURAX_SUCCESS <;>
      simp [neurax_hw_pooling, neurax_write_reg, hhw, hcase]
  · by_cases hcase : (neurax_wait_for_completion device statusReads NEURAX_DEFAULT_TIMEOUT_MS).2 = NEURAX_SUCCESS <;>
      simp [neurax_hw_activation, neurax_write_reg, hhw, hcase]
  · unfold pool_control_raw
    split <;> decide
  · unfold pool_control_raw
    split <;> decide
  · unfold act_control_raw
    split <;> decide
  · unfold act_control_raw
    split <;> decide
  · intro op hop
    rw [neurax_wait_for_completion, if_neg (by simp [hhw])] at hop
    exact wait_poll_reads_only statusReads _ 0 op hop
  · intro hq
    rw [neurax_wait_for_completion, if_neg (by simp [hhw])]
    exact wait_poll_quiet statusReads _ 0 (fun j hj => by simpa using hq j hj)
  · intro j hj hpre herr
    rw [neurax_wait_for_completion, if_neg (by simp [hhw])]
    exact wait_poll_first_error statusReads j _ 0 hj
      (fun i hi => by simpa using hpre i hi) (by simpa using herr)
  · intro j hj hpre herr hdone
    have hw : neurax_wait_for_completion device statusReads NEURAX_DEFAULT_TIMEOUT_MS =
        (List.replicate (j + 1) (reg_op.read NEURAX_REG_STATUS), NEURAX_SUCCESS) := by
      rw [neurax_wait_for_completion, if_neg (by simp [hhw])]
      exact wait_poll_first_done statusReads j _ 0 hj
        (fun i hi => by simpa using hpre i hi) (by simpa using herr) (by simpa using hdone)
    have hw2 : (neurax_wait_for_completion device statusReads NEURAX_DEFAULT_TIMEOUT_MS).2 =
        NEURAX_SUCCESS := by rw [hw]
    refine ⟨hw, ?_, ?_⟩
    · simp [neurax_hw_pooling, hw2]
    · simp [neurax_hw_activation, hw2]

/-- Witness for hw_protocol_sequence: with the done bit raised at the
first poll, the wait succeeds after a single status read and the
pooling and activation hardware legs return their CPU kernel
results. -/
theorem hw_protocol_sequence_witness :
    neurax_wait_for_completion c5_dev (fun _ => STAT_DONE) NEURAX_DEFAULT_TIMEOUT_MS =
      (List.replicate 1 (reg_op.read NEURAX_REG_STATUS), NEURAX_SUCCESS) ∧
    (neurax_hw_pooling c5_dev (fun _ => STAT_DONE) c5_input
        { pool_width := 2, pool_height := 2, stride_x := 2, stride_y := 2, pool_type := 0 }
        { data := [0, 0, 0, 0], width := 2, height := 2, channels := 1, batch_size := 1,
          data_type := NEURAX_DATA_FLOAT32, data_size := 16 }).2 =
      neurax_cpu_pooling c5_input
        { pool_width := 2, pool_height := 2, stride_x := 2, stride_y := 2, pool_type := 0 }
        { data := [0, 0, 0, 0], width := 2, height := 2, channels := 1, batch_size := 1,
          data_type := NEURAX_DATA_FLOAT32, data_size := 16 } := by
  have h := hw_protocol_sequence (fun q => q) (fun q => q) c5_dev (fun _ => STAT_DONE)
      c5_input
      { pool_width := 2, pool_height := 2, stride_x := 2, stride_y := 2, pool_type := 0 }
      0
      { data := [0, 0, 0, 0], width := 2, height := 2, channels := 1, batch_size := 1,
        data_type := NEURAX_DATA_FLOAT32, data_size := 16 }
      { data := [0, 0, 0, 0], width := 2, height := 2, channels := 1, batch_size := 1,
        data_type := NEURAX_DATA_FLOAT32, data_size := 16 } rfl
  have hdone := h.2.2.2.2.2.2.2.2.2 0 (by decide)
    (fun i hi => absurd hi (Nat.not_lt_zero i)) (by decide) (by decide)
  exact ⟨hdone.1, hdone.2.1⟩

/-- Claim C5 (counterexample): the conv2d hardware leg writes its
three config registers and a control word that has the convolution
enable bit but not the start bit, and its register trace contains no
status read at all — the claimed start-and-poll sequence never
happens for conv2d. -/
theorem conv_hw_no_start_no_poll_counterexample :
    (neurax_hw_conv2d (fun q => q) (fun q => q) c5_dev c5_input c5_weights none
        c5_config c5_output).1 =
      [reg_op.write NEURAX_REG_CONV_CONFIG 130,
       reg_op.write NEURAX_REG_DIM_CONFIG 262148,
       reg_op.write NEURAX_REG_ACT_CONFIG 3,
       reg_op.write NEURAX_REG_CONTROL 4] ∧
    Nat.testBit 4 0 = false ∧
    4 &&& CTRL_CONV_EN = CTRL_CONV_EN ∧
    reg_op.read NEURAX_REG_STATUS ∉
      (neurax_hw_conv2d (fun q => q) (fun q => q) c5_dev c5_input c5_weights none
        c5_config c5_output).1 := by
  refine ⟨by decide, by decide, by decide, by decide⟩

/-- Claim C4 (amended): whenever the output dimensions match the
enforced formula floor((in - pool) / stride) + 1 per axis (and the
pool fits inside the input), every pooling window lies entirely in
bounds: the visited-tap count of every output cell equals the nominal
window area, so the average-pooling divisor is the window area — in
particular four, never fewer, on the 3 x 3 input with a 2 x 2 window
and stride 2, whose single output cell is the one touching the
edge. -/
theorem pooling_window_in_bounds (input : neurax_tensor_t) (config : neurax_pool_config_t)
    (batch ch out_y out_x : Nat)
    (hsy : 1 ≤ config.stride_y) (hsx : 1 ≤ config.stride_x)
    (hph1 : 1 ≤ config.pool_height) (hpw1 : 1 ≤ config.pool_width)
    (hph : config.pool_height ≤ input.height) (hpw : config.pool_width ≤ input.width)
    (hh32 : input.height < U32_MOD) (hw32 : input.width < U32_MOD)
    (hoy : out_y < pool_out_height input config) (hox : out_x < pool_out_width input config) :
    (pool_window_scan input config batch ch out_y out_x).2 =
      config.pool_height * config.pool_width ∧
    (config.pool_type = 1 →
      pool_result_value input config batch ch out_y out_x =
        (pool_window_scan input config batch ch out_y out_x).1 /
          (config.pool_height * config.pool_width : Nat)) := by
  have hout_h : pool_out_height input config =
      (input.height - config.pool_height) / config.stride_y + 1 := by
    unfold pool_out_height
    rw [sub32_eq_of_le _ _ hph hh32]
    apply add32_eq_of_lt
    have := Nat.div_le_self (input.height - config.pool_height) config.stride_y
    omega
  have hout_w : pool_out_width input config =
      (input.width - config.pool_width) / config.stride_x + 1 := by
    unfold pool_out_width
    rw [sub32_eq_of_le _ _ hpw hw32]
    apply add32_eq_of_lt
    have := Nat.div_le_self (input.width - config.pool_width) config.stride_x
    omega
  have hy : out_y * config.stride_y ≤ input.height - config.pool_height := by
    rw [hout_h] at hoy
    exact (Nat.le_div_iff_mul_le hsy).mp (by omega)
  have hx : out_x * config.stride_x ≤ input.width - config.pool_width := by
    rw [hout_w] at hox
    exact (Nat.le_div_iff_mul_le hsx).mp (by omega)
  have hcount : (pool_window_scan input config batch ch out_y out_x).2 =
      config.pool_height * config.pool_width := by
    unfold pool_window_scan
    refine Eq.trans (foldl_snd_add _ config.pool_width _ _ ?_) ?_
    · intro a py hpy
      have hpy2 := List.mem_range.mp hpy
      refine Eq.trans (foldl_snd_add _ 1 _ _ ?_) ?_
      · intro b px hpx
        have hpx2 := List.mem_range.mp hpx
        have hby : out_y * config.stride_y + py < input.height := by omega
        have hbx : out_x * config.stride_x + px < input.width := by omega
        simp only [if_pos (And.intro hby hbx)]
      · simp [List.length_range]
    · simp [List.length_range, Nat.mul_comm]
  refine ⟨hcount, fun havg => ?_⟩
  have hpos : 0 < (pool_window_scan input config batch ch out_y out_x).2 := by
    rw [hcount]
    exact Nat.mul_pos hph1 hpw1
  simp only [pool_result_value]
  rw [if_pos (And.intro havg hpos), hcount]

/-- Witness for pooling_window_in_bounds at the 3 x 3 input with a
2 x 2 window and stride 2: its single output cell visits 4 taps. -/
theorem pooling_window_in_bounds_witness :
    (pool_window_scan c4_input c4_config 0 0 0 0).2 = 4 := by
  have h := pooling_window_in_bounds c4_input c4_config 0 0 0 0
    (by decide) (by decide) (by decide) (by decide) (by decide) (by decide)
    (by decide) (by decide) (by decide) (by decide)
  simpa using h.1

/-- Claim C4 (counterexample): on the 3 x 3 input with a 2 x 2 window
and stride 2, the enforced output is 1 x 1, and that single output
cell — the one touching the edge — visits exactly 4 in-bounds taps,
not fewer than 4: its window does not exceed the input bounds, and
the average divides by 4 (the cell value is (1 + 2 + 4 + 5) / 4 =
3). -/
theorem pooling_3x3_edge_counterexample :
    pool_out_height c4_input c4_config = 1 ∧
    pool_out_width c4_input c4_config = 1 ∧
    (pool_window_scan c4_input c4_config 0 0 0 0).2 = 4 ∧
    ¬ (pool_window_scan c4_input c4_config 0 0 0 0).2 < 4 ∧
    neurax_cpu_pooling c4_input c4_config c4_output =
      (NEURAX_SUCCESS, { c4_output with data := [3] }) := by
  refine ⟨by decide, by decide, ?_, ?_, ?_⟩
  · norm_num [pool_window_scan, neurax_get_tensor_value, c4_input, c4_config,
              List.range_succ]
  · norm_num [pool_window_scan, neurax_get_tensor_value, c4_input, c4_config,
              List.range_succ]
  · norm_num [neurax_cpu_pooling, pool_out_height, pool_out_width, pool_output_data,
              pool_result_value, pool_window_scan, neurax_get_tensor_value,
              add32, sub32, U32_MOD, c4_input, c4_config, c4_output, List.range_succ]

/-- Emulated devices dispatch convolution to the pure software
reference with no register traffic. -/
theorem emulated_conv2d_eq_sw (tanhf expf : ℚ → ℚ) (device : neurax_device_t)
    (hinit : device.initialized = true) (hhw : device.hardware_available = false)
    (statusReads : Nat → Nat) (input weights : neurax_tensor_t)
    (bias : Option neurax_tensor_t) (cfg : neurax_conv_config_t)
    (output : neurax_tensor_t) :
    neurax_conv2d tanhf expf device statusReads input weights bias cfg output =
      ([], neurax_sw_conv2d tanhf expf input weights bias cfg output) := by
  unfold neurax_conv2d neurax_sw_conv2d
  simp only [hinit, hhw, Bool.true_eq_false, Bool.false_eq_true, false_and, if_false]
  split_ifs <;> rfl

/-- Emulated devices dispatch pooling to the pure software reference
with no register traffic. -/
theorem emulated_pooling_eq_sw (device : neurax_device_t)
    (hinit : device.initialized = true) (hhw : device.hardware_available = false)
    (statusReads : Nat → Nat) (input : neurax_tensor_t)
    (cfg : neurax_pool_config_t) (output : neurax_tensor_t) :
    neurax_pooling device statusReads input cfg output =
      ([], neurax_sw_pooling input cfg output) := by
  unfold neurax_pooling neurax_sw_pooling
  simp only [hinit, hhw, Bool.true_eq_false, Bool.false_eq_true, false_and, if_false]
  split_ifs <;> rfl

/-- Emulated devices dispatch activation to the pure software
reference with no register traffic. -/
theorem emulated_activation_eq_sw (tanhf expf : ℚ → ℚ) (device : neurax_device_t)
    (hinit : device.initialized = true) (hhw : device.hardware_available = false)
    (statusReads : Nat → Nat) (input : neurax_tensor_t) (activation : Nat)
    (output : neurax_tensor_t) :
    neurax_activation tanhf expf device statusReads input activation output =
      ([], neurax_sw_activation tanhf expf input activation output) := by
  unfold neurax_activation neurax_sw_activation
  simp only [hinit, hhw, Bool.true_eq_false, Bool.false_eq_true, false_and, if_false]
  split_ifs <;> rfl

/-- Claim C7: initialization with an unreachable hardware path (no
device node opened, or a failed memory mapping) returns success with
an initialized device in emulated mode — hardware absence is never
fatal — and every subsequent operation on that device produces no
register traffic and returns exactly the software-only reference
result. -/
theorem init_degrades_to_emulation (probe : hw_probe) (config : neurax_config_t)
    (hfail : (probe.dev_fd = none ∧ probe.uio_fd = none) ∨ probe.mmap_ok = false) :
    neurax_init probe config =
      ([], NEURAX_SUCCESS,
       { config := config, initialized := true, hardware_available := false }) ∧
    (∀ (tanhf expf : ℚ → ℚ) (statusReads : Nat → Nat) (input weights : neurax_tensor_t)
       (bias : Option neurax_tensor_t) (cfg : neurax_conv_config_t) (output : neurax_tensor_t),
       neurax_conv2d tanhf expf (neurax_init probe config).2.2 statusReads input weights
           bias cfg output =
         ([], neurax_sw_conv2d tanhf expf input weights bias cfg output)) ∧
    (∀ (statusReads : Nat → Nat) (input : neurax_tensor_t) (cfg : neurax_pool_config_t)
       (output : neurax_tensor_t),
       neurax_pooling (neurax_init probe config).2.2 statusReads input cfg output =
         ([], neurax_sw_pooling input cfg output)) ∧
    (∀ (tanhf expf : ℚ → ℚ) (statusReads : Nat → Nat) (input : neurax_tensor_t)
       (activation : Nat) (output : neurax_tensor_t),
       neurax_activation tanhf expf (neurax_init probe config).2.2 statusReads input
           activation output =
         ([], neurax_sw_activation tanhf expf input activation output)) := by
  have hkey : neurax_init probe config =
      ([], NEURAX_SUCCESS,
       { config := config, initialized := true, hardware_available := false }) := by
    obtain ⟨df, uf, mk⟩ := probe
    rcases hfail with ⟨h1, h2⟩ | h1 <;>
      cases df <;> cases uf <;>
        simp_all [neurax_init, neurax_device_open, neurax_write_reg]
  refine ⟨hkey, ?_, ?_, ?_⟩
  · intro tanhf expf statusReads input weights bias cfg output
    rw [hkey]
    exact emulated_conv2d_eq_sw tanhf expf _ rfl rfl statusReads input weights bias cfg output
  · intro statusReads input cfg output
    rw [hkey]
    exact emulated_pooling_eq_sw _ rfl rfl statusReads input cfg output
  · intro tanhf expf statusReads input activation output
    rw [hkey]
    exact emulated_activation_eq_sw tanhf expf _ rfl rfl statusReads input activation output

/-- Witness for init_degrades_to_emulation with both device nodes
absent: initialization succeeds in emulated mode and a concrete
pooling call returns the software reference result. -/
theorem init_degrades_to_emulation_witness :
    neurax_init c7_probe c7_config =
      ([], NEURAX_SUCCESS,
       { config := c7_config, initialized := true, hardware_available := false }) ∧
    neurax_pooling (neurax_init c7_probe c7_config).2.2 (fun _ => 0) c7_input c7_pconfig
        c7_output =
      ([], neurax_sw_pooling c7_input c7_pconfig c7_output) := by
  have h := init_degrades_to_emulation c7_probe c7_config (Or.inl ⟨rfl, rfl⟩)
  exact ⟨h.1, h.2.2.1 (fun _ => 0) c7_input c7_pconfig c7_output⟩

/-- Claim C3 (amended): conv2d requires the caller-supplied output
tensor to match the kernel-computed dimensions, which are evaluated
in 32-bit unsigned arithmetic as ((in + 2 * pad - kernel) mod 2^32) /
stride + 1 per axis; whenever the kernel does not exceed the padded
input (and the padded input fits in 32 bits) this equals the
mathematical floor((in + 2 * pad - kernel) / stride) + 1.  On any
mismatch the call fails with InvalidParam, and in every case the
output tensor dimensions, type and declared byte length are never
changed. -/
theorem conv2d_dim_check (tanhf expf : ℚ → ℚ) (input weights : neurax_tensor_t)
    (bias : Option neurax_tensor_t) (config : neurax_conv_config_t)
    (output : neurax_tensor_t) :
    ((output.height ≠ conv_out_height input config ∨
      output.width ≠ conv_out_width input config) →
       neurax_cpu_conv2d tanhf expf input weights bias config output =
         (NEURAX_ERROR_INVALID_PARAM, output)) ∧
    ((output.height = conv_out_height input config ∧
      output.width = conv_out_width input config) →
       (neurax_cpu_conv2d tanhf expf input weights bias config output).1 =
         NEURAX_SUCCESS) ∧
    ((neurax_cpu_conv2d tanhf expf input weights bias config output).2.width =
       output.width ∧
     (neurax_cpu_conv2d tanhf expf input weights bias config output).2.height =
       output.height ∧
     (neurax_cpu_conv2d tanhf expf input weights bias config output).2.channels =
       output.channels ∧
     (neurax_cpu_conv2d tanhf expf input weights bias config output).2.batch_size =
       output.batch_size ∧
     (neurax_cpu_conv2d tanhf expf input weights bias config output).2.data_type =
       output.data_type ∧
     (neurax_cpu_conv2d tanhf expf input weights bias config output).2.data_size =
       output.data_size) ∧
    (1 ≤ config.kernel_height → 1 ≤ config.stride_y →
     config.kernel_height ≤ input.height + 2 * config.padding_y →
     input.height + 2 * config.padding_y < U32_MOD →
       (conv_out_height input config : ℤ) =
         spec_conv_out_dim input.height config.padding_y config.kernel_height
           config.stride_y) ∧
    (1 ≤ config.kernel_width → 1 ≤ config.stride_x →
     config.kernel_width ≤ input.width + 2 * config.padding_x →
     input.width + 2 * config.padding_x < U32_MOD →
       (conv_out_width input config : ℤ) =
         spec_conv_out_dim input.width config.padding_x config.kernel_width
           config.stride_x) := by
  refine ⟨?_, ?_, ?_, ?_, ?_⟩
  · intro h
    rcases h with h | h <;> simp [neurax_cpu_conv2d, h]
  · intro h
    simp [neurax_cpu_conv2d, h.1, h.2]
  · by_cases h : output.height ≠ conv_out_height input config ∨
        output.width ≠ conv_out_width input config <;>
      simp [neurax_cpu_conv2d, h]
  · intro hk hs hle hlt
    have e1 : add32 input.height (2 * config.padding_y) =
        input.height + 2 * config.padding_y := add32_eq_of_lt _ _ hlt
    have e2 : sub32 (input.height + 2 * config.padding_y) config.kernel_height =
        input.height + 2 * config.padding_y - config.kernel_height :=
      sub32_eq_of_le _ _ hle hlt
    have e3 : add32 ((input.height + 2 * config.padding_y - config.kernel_height) /
          config.stride_y) 1 =
        (input.height + 2 * config.padding_y - config.kernel_height) /
          config.stride_y + 1 := by
      apply add32_eq_of_lt
      have := Nat.div_le_self
        (input.height + 2 * config.padding_y - config.kernel_height) config.stride_y
      omega
    rw [conv_out_height, e1, e2, e3]
    unfold spec_conv_out_dim
    rw [show ((input.height : ℤ) + 2 * config.padding_y - config.kernel_height) =
          ((input.height + 2 * config.padding_y - config.kernel_height : Nat) : ℤ) by
        push_cast; omega]
    rw [Int.fdiv_eq_div (Int.natCast_nonneg _), ← Int.ofNat_div]
    · push_cast
      ring
    · exact Int.natCast_nonneg _
  · intro hk hs hle hlt
    have e1 : add32 input.width (2 * config.padding_x) =
        input.width + 2 * config.padding_x := add32_eq_of_lt _ _ hlt
    have e2 : sub32 (input.width + 2 * config.padding_x) config.kernel_width =
        input.width + 2 * config.padding_x - config.kernel_width :=
      sub32_eq_of_le _ _ hle hlt
    have e3 : add32 ((input.width + 2 * config.padding_x - config.kernel_width) /
          config.stride_x) 1 =
        (input.width + 2 * config.padding_x - config.kernel_width) /
          config.stride_x + 1 := by
      apply add32_eq_of_lt
      have := Nat.div_le_self
        (input.width + 2 * config.padding_x - config.kernel_width) config.stride_x
      omega
    rw [conv_out_width, e1, e2, e3]
    unfold spec_conv_out_dim
    rw [show ((input.width : ℤ) + 2 * config.padding_x - config.kernel_width) =
          ((input.width + 2 * config.padding_x - config.kernel_width : Nat) : ℤ) by
        push_cast; omega]
    rw [Int.fdiv_eq_div (Int.natCast_nonneg _), ← Int.ofNat_div]
    · push_cast
      ring
    · exact Int.natCast_nonneg _

/-- Witness for conv2d_dim_check: a mismatching output is rejected
with InvalidParam and left untouched, and on an in-range geometry
(3 x 3 kernel, stride 1, padding 1 on a 1-pixel axis) the computed
dimension equals the floor formula. -/
theorem conv2d_dim_check_witness :
    neurax_cpu_conv2d (fun q => q) (fun q => q) c3_input c3_weights none c3_config
        c3_input =
      (NEURAX_ERROR_INVALID_PARAM, c3_input) ∧
    (conv_out_height c3_input
        { kernel_width := 3, kernel_height := 3, stride_x := 1, stride_y := 1,
          padding_x := 1, padding_y := 1, input_channels := 1, output_channels := 1,
          use_bias := false, activation := 3 } : ℤ) =
      spec_conv_out_dim 1 1 3 1 := by
  have h := conv2d_dim_check (fun q => q) (fun q => q) c3_input c3_weights none
    c3_config c3_input
  have h2 := conv2d_dim_check (fun q => q) (fun q => q) c3_input c3_weights none
    { kernel_width := 3, kernel_height := 3, stride_x := 1, stride_y := 1,
      padding_x := 1, padding_y := 1, input_channels := 1, output_channels := 1,
      use_bias := false, activation := 3 } c3_input
  exact ⟨h.1 (Or.inl (by decide)),
         h2.2.2.2.1 (by decide) (by decide) (by decide) (by decide)⟩

/-- Claim C3 (counterexample): with a validated configuration whose
kernel height 3 exceeds the padded input height 1, the uint32
evaluation of (1 + 0 - 3) / 2 + 1 wraps to 2147483648; a valid output
tensor of that height differs from the claimed floor-formula height
floor((1 - 3) / 2) + 1 = 0, yet the call succeeds instead of failing
with InvalidParam. -/
theorem conv2d_dim_check_counterexample :
    neurax_validate_tensor c3_input = NEURAX_SUCCESS ∧
    neurax_validate_conv_config c3_config = NEURAX_SUCCESS ∧
    neurax_validate_tensor c3_output = NEURAX_SUCCESS ∧
    spec_conv_out_dim c3_input.height c3_config.padding_y c3_config.kernel_height
      c3_config.stride_y = 0 ∧
    (c3_output.height : ℤ) ≠
      spec_conv_out_dim c3_input.height c3_config.padding_y c3_config.kernel_height
        c3_config.stride_y ∧
    conv_out_height c3_input c3_config = 2147483648 ∧
    (neurax_cpu_conv2d (fun q => q) (fun q => q) c3_input c3_weights none c3_config
        c3_output).1 = NEURAX_SUCCESS := by
  refine ⟨by decide, by decide, by decide, by decide, by decide, by decide, ?_⟩
  simp only [neurax_cpu_conv2d]
  rw [if_neg (by decide)]

/-- Value computed by the identity convolution configuration at one
in-bounds output coordinate: the input element itself. -/
theorem conv_identity_elem (tanhf expf : ℚ → ℚ) (input weights : neurax_tensor_t)
    (hch : input.channels = 1) (hwgt : weights.data.getD 0 0 = 1)
    (b y x : Nat) (hy : y < input.height) (hx : x < input.width) :
    conv_result_value tanhf expf input weights none c8_config b 0 y x =
      input.data.getD ((b * input.height + y) * input.width + x) 0 := by
  have h1 : conv_result_value tanhf expf input weights none c8_config b 0 y x =
      conv_accumulate input weights c8_config b 0 y x := rfl
  rw [h1]
  unfold conv_accumulate
  simp only [c8_config]
  rw [show List.range 1 = [0] from rfl]
  simp only [List.foldl_cons, List.foldl_nil]
  have hcond : (0 : ℤ) ≤ ((y * 1 + 0 : Nat) : ℤ) - ((0 : Nat) : ℤ) ∧
      ((y * 1 + 0 : Nat) : ℤ) - ((0 : Nat) : ℤ) < (input.height : ℤ) ∧
      (0 : ℤ) ≤ ((x * 1 + 0 : Nat) : ℤ) - ((0 : Nat) : ℤ) ∧
      ((x * 1 + 0 : Nat) : ℤ) - ((0 : Nat) : ℤ) < (input.width : ℤ) := by
    push_cast
    refine ⟨by omega, by omega, by omega, by omega⟩
  rw [if_pos hcond]
  unfold neurax_get_tensor_value neurax_get_weight_value
  simp only [Nat.cast_zero, sub_zero, Int.toNat_natCast, Nat.mul_one, Nat.add_zero,
             Nat.zero_mul, Nat.mul_zero, Nat.zero_add, hch, hwgt, mul_one, zero_add]

/-- Claim C8: conv2d with a 1 x 1 kernel, stride 1, padding 0, a
single identity weight 1, no bias and linear activation reproduces a
float32 input exactly: the output buffer equals the input buffer and
the call succeeds. -/
theorem conv2d_identity (tanhf expf : ℚ → ℚ) (input weights output : neurax_tensor_t)
    (hch : input.channels = 1) (hty : input.data_type = NEURAX_DATA_FLOAT32)
    (hh1 : 1 ≤ input.height) (hw1 : 1 ≤ input.width)
    (hh32 : input.height < U32_MOD) (hw32 : input.width < U32_MOD)
    (hlen : input.data.length = input.width * input.height * input.batch_size)
    (how : output.width = input.width) (hoh : output.height = input.height)
    (hoc : output.channels = 1) (hob : output.batch_size = input.batch_size)
    (hoty : output.data_type = NEURAX_DATA_FLOAT32)
    (holen : output.data.length = input.data.length)
    (hwgt : weights.data.getD 0 0 = 1) :
    neurax_cpu_conv2d tanhf expf input weights none c8_config output =
      (NEURAX_SUCCESS, { output with data := input.data }) := by
  have hOh : conv_out_height input c8_config = input.height := by
    unfold conv_out_height
    simp only [c8_config, Nat.mul_zero]
    rw [show add32 input.height 0 = input.height from by
          unfold add32; rw [Nat.add_zero]; exact Nat.mod_eq_of_lt hh32,
        sub32_eq_of_le _ _ hh1 hh32, Nat.div_one]
    unfold add32
    rw [Nat.sub_add_cancel hh1]
    exact Nat.mod_eq_of_lt hh32
  have hOw : conv_out_width input c8_config = input.width := by
    unfold conv_out_width
    simp only [c8_config, Nat.mul_zero]
    rw [show add32 input.width 0 = input.width from by
          unfold add32; rw [Nat.add_zero]; exact Nat.mod_eq_of_lt hw32,
        sub32_eq_of_le _ _ hw1 hw32, Nat.div_one]
    unfold add32
    rw [Nat.sub_add_cancel hw1]
    exact Nat.mod_eq_of_lt hw32
  have hdata : conv_output_data tanhf expf input weights none c8_config output =
      input.data := by
    apply List.ext_getElem
    · simpa [conv_output_data] using holen
    · intro i h1 h2
      have hi : i < input.width * input.height * input.batch_size := by
        rw [← hlen]; exact h2
      have hWH : 0 < input.width * input.height :=
        Nat.mul_pos (by omega) (by omega)
      have hb : i / (input.width * input.height) < input.batch_size := by
        rw [Nat.div_lt_iff_lt_mul hWH, Nat.mul_comm input.batch_size
              (input.width * input.height)]
        exact hi
      have hyH : i / input.width % input.height < input.height :=
        Nat.mod_lt _ (by omega)
      have hxW : i % input.width < input.width := Nat.mod_lt _ (by omega)
      simp only [conv_output_data, List.getElem_map, List.getElem_range, hoc, how, hoh,
                 hob, hoty, Nat.mod_one, Nat.div_one, Nat.one_mul]
      rw [if_pos (And.intro hb (by decide : 0 < c8_config.output_channels))]
      rw [conv_identity_elem tanhf expf input weights hch hwgt _ _ _ hyH hxW]
      have hrecomp : ((i / (input.width * input.height)) * input.height +
            i / input.width % input.height) * input.width + i % input.width = i := by
        rw [← Nat.div_div_eq_div_mul]
        conv_rhs => rw [← Nat.div_add_mod i input.width,
                        ← Nat.div_add_mod (i / input.width) input.height]
        ring
      rw [hrecomp]
      exact List.getD_eq_getElem input.data 0 h2
  simp only [neurax_cpu_conv2d]
  rw [if_neg (by rw [hoh, hOh, how, hOw]; simp), hdata]

/-- Witness for conv2d_identity: the identity convolution on a
concrete 2 x 2 float32 input returns success with the output buffer
equal to the input buffer. -/
theorem conv2d_identity_witness :
    neurax_cpu_conv2d (fun q => q) (fun q => q) c8_input c8_weights none c8_config
        c8_output =
      (NEURAX_SUCCESS, { c8_output with data := c8_input.data }) :=
  conv2d_identity (fun q => q) (fun q => q) c8_input c8_weights c8_output rfl rfl
    (by decide) (by decide) (by decide) (by decide) (by decide) rfl rfl rfl rfl rfl
    (by decide) rfl
